import Mathlib

/-! Verification of the Komodo notary Season Registry (komodo_hardfork.rs), the
back-notarization codec and the chain replay/builder engine
(block/tests/komodo_generate.rs) of KomodoPlatform/zebra.

Machine integers of the source (u32 heights, timestamps, indexes) are modelled
as `Nat`; panics (`unreachable!`, `expect`, `assert!`, out-of-bounds indexing)
are modelled as the error branch of `Except`. Hashing, merkle-root computation
and the fixture template blocks are external collaborators of the engine and
enter the embedding as fields of `Env`; the externally supplied per-transaction
fixup function enters as a function argument. -/

/-- Raw byte strings (scripts, hashes, coinbase payloads). -/
abbrev Bytes := List Nat

/-- The errors of the Season Registry (enum NotaryDataError). -/
inductive NotaryDataError where
  | NoNotaryPubkeysInitialised
  | NoSeasonForHeight
  | NoSeasonForTimestamp
deriving DecidableEq

/-- const NUM_KMD_NOTARIES. -/
def NUM_KMD_NOTARIES : Nat := 64

/-- const NUM_KMD_SEASONS. -/
def NUM_KMD_SEASONS : Nat := 7

/-- KMD_SEASON_HEIGHTS as assembled by NNData::new: season height upper bounds
[814000, 1444000, nDecemberHardforkHeight, nS4HardforkHeight, nS5HardforkHeight,
nS6HardforkHeight, 7113400]. -/
def KMD_SEASON_HEIGHTS : List Nat :=
  [814000, 1444000, 1670000, 1922000, 2437300, 2963330, 7113400]

/-- KMD_SEASON_TIMESTAMPS as assembled by NNData::new. -/
def KMD_SEASON_TIMESTAMPS : List Nat :=
  [1525132800, 1563148800, 1576840000, 1592146800, 1623682800, 1656077853, 1751328000]

/-- The inner loop of NNData::get_kmd_season / get_ac_season: walking the bound
list from position `i` with `prevBound` the bound at `i-1`, return the first
season `i` with `h <= bounds[i] && h > bounds[i-1]`, else the given error. -/
def season_search (err : NotaryDataError) (h : Nat) (prevBound : Nat) (i : Nat) :
    List Nat → Except NotaryDataError Nat
  | [] => .error err
  | b :: rest =>
    if h ≤ b ∧ prevBound < h then .ok i else season_search err h b (i + 1) rest

/-- NNData::get_kmd_season, returning the season index: season 0 when
`height <= KMD_SEASON_HEIGHTS[0]`, else the loop over i in 1..len, else
NoSeasonForHeight. -/
def get_kmd_season (height : Nat) : Except NotaryDataError Nat :=
  match KMD_SEASON_HEIGHTS with
  | [] => .error .NoSeasonForHeight
  | b0 :: rest =>
    if height ≤ b0 then .ok 0 else season_search .NoSeasonForHeight height b0 1 rest

/-- NNData::get_ac_season, returning the season index over the timestamp axis. -/
def get_ac_season (timestamp : Nat) : Except NotaryDataError Nat :=
  match KMD_SEASON_TIMESTAMPS with
  | [] => .error .NoSeasonForTimestamp
  | b0 :: rest =>
    if timestamp ≤ b0 then .ok 0
    else season_search .NoSeasonForTimestamp timestamp b0 1 rest
/-- The compiled-in season key table NOTARIES_ELECTED_SOURCE: seven seasons of 64
(label, pubkey) entries; the pubkey is the 33-byte compressed key given as its
numeric value (compressed encodings are canonical, so key equality is value equality). -/
def NOTARIES_ELECTED_SOURCE : List (List (String × Nat)) := [
  [
    ("0_jl777_testA", 0x03b7621b44118017a16043f19b30cc8a4cfe068ac4e42417bae16ba460c80f3828),
    ("0_jl777_testB", 0x02ebfc784a4ba768aad88d44d1045d240d47b26e248cafaf1c5169a42d7a61d344),
    ("0_kolo_testA", 0x0287aa4b73988ba26cf6565d815786caf0d2c4af704d7883d163ee89cd9977edec),
    ("artik_AR", 0x029acf1dcd9f5ff9c455f8bb717d4ae0c703e089d16cf8424619c491dff5994c90),
    ("artik_EU", 0x03f54b2c24f82632e3cdebe4568ba0acf487a80f8a89779173cdb78f74514847ce),
    ("artik_NA", 0x0224e31f93eff0cc30eaf0b2389fbc591085c0e122c4d11862c1729d090106c842),
    ("artik_SH", 0x02bdd8840a34486f38305f311c0e2ae73e84046f6e9c3dd3571e32e58339d20937),
    ("badass_EU", 0x0209d48554768dd8dada988b98aca23405057ac4b5b46838a9378b95c3e79b9b9e),
    ("badass_NA", 0x02afa1a9f948e1634a29dc718d218e9d150c531cfa852843a1643a02184a63c1a7),
    ("badass_SH", 0x026b49dd3923b78a592c1b475f208e23698d3f085c4c3b4906a59faf659fd9530b),
    ("crackers_EU", 0x03bc819982d3c6feb801ec3b720425b017d9b6ee9a40746b84422cbbf929dc73c3),
    ("crackers_NA", 0x03205049103113d48c7c7af811b4c8f194dafc43a50d5313e61a22900fc1805b45),
    ("crackers_SH", 0x02be28310e6312d1dd44651fd96f6a44ccc269a321f907502aae81d246fabdb03e),
    ("durerus_EU", 0x02bcbd287670bdca2c31e5d50130adb5dea1b53198f18abeec7211825f47485d57),
    ("etszombi_AR", 0x031c79168d15edabf17d9ec99531ea9baa20039d0cdc14d9525863b83341b210e9),
    ("etszombi_EU", 0x0281b1ad28d238a2b217e0af123ce020b79e91b9b10ad65a7917216eda6fe64bf7),
    ("etszombi_SH", 0x025d7a193c0757f7437fad3431f027e7b5ed6c925b77daba52a8755d24bf682dde),
    ("farl4web_EU", 0x0300ecf9121cccf14cf9423e2adb5d98ce0c4e251721fa345dec2e03abeffbab3f),
    ("farl4web_SH", 0x0396bb5ed3c57aa1221d7775ae0ff751e4c7dc9be220d0917fa8bbdf670586c030),
    ("fullmoon_AR", 0x0254b1d64840ce9ff6bec9dd10e33beb92af5f7cee628f999cb6bc0fea833347cc),
    ("fullmoon_NA", 0x031fb362323b06e165231c887836a8faadb96eda88a79ca434e28b3520b47d235b),
    ("fullmoon_SH", 0x030e12b42ec33a80e12e570b6c8274ce664565b5c3da106859e96a7208b93afd0d),
    ("grewal_NA", 0x03adc0834c203d172bce814df7c7a5e13dc603105e6b0adabc942d0421aefd2132),
    ("grewal_SH", 0x03212a73f5d38a675ee3cdc6e82542a96c38c3d1c79d25a1ed2e42fcf6a8be4e68),
    ("indenodes_AR", 0x02ec0fa5a40f47fd4a38ea5c89e375ad0b6ddf4807c99733c9c3dc15fb978ee147),
    ("indenodes_EU", 0x0221387ff95c44cb52b86552e3ec118a3c311ca65b75bf807c6c07eaeb1be8303c),
    ("indenodes_NA", 0x02698c6f1c9e43b66e82dbb163e8df0e5a2f62f3a7a882ca387d82f86e0b3fa988),
    ("indenodes_SH", 0x0334e6e1ec8285c4b85bd6dae67e17d67d1f20e7328efad17ce6fd24ae97cdd65e),
    ("jeezy_EU", 0x023cb3e593fb85c5659688528e9a4f1c4c7f19206edc7e517d20f794ba686fd6d6),
    ("jsgalt_NA", 0x027b3fb6fede798cd17c30dbfb7baf9332b3f8b1c7c513f443070874c410232446),
    ("karasugoi_NA", 0x02a348b03b9c1a8eac1b56f85c402b041c9bce918833f2ea16d13452309052a982),
    ("kashifali_EU", 0x033777c52a0190f261c6f66bd0e2bb299d30f012dcb8bfff384103211edb8bb207),
    ("kolo_AR", 0x03016d19344c45341e023b72f9fb6e6152fdcfe105f3b4f50b82a4790ff54e9dc6),
    ("kolo_SH", 0x02aa24064500756d9b0959b44d5325f2391d8e95c6127e109184937152c384e185),
    ("metaphilibert_AR", 0x02adad675fae12b25fdd0f57250b0caf7f795c43f346153a31fe3e72e7db1d6ac6),
    ("movecrypto_AR", 0x022783d94518e4dc77cbdf1a97915b29f427d7bc15ea867900a76665d3112be6f3),
    ("movecrypto_EU", 0x021ab53bc6cf2c46b8a5456759f9d608966eff87384c2b52c0ac4cc8dd51e9cc42),
    ("movecrypto_NA", 0x02efb12f4d78f44b0542d1c60146738e4d5506d27ec98a469142c5c84b29de0a80),
    ("movecrypto_SH", 0x031f9739a3ebd6037a967ce1582cde66e79ea9a0551c54731c59c6b80f635bc859),
    ("muros_AR", 0x022d77402fd7179335da39479c829be73428b0ef33fb360a4de6890f37c2aa005e),
    ("noashh_AR", 0x029d93ef78197dc93892d2a30e5a54865f41e0ca3ab7eb8e3dcbc59c8756b6e355),
    ("noashh_EU", 0x02061c6278b91fd4ac5cab4401100ffa3b2d5a277e8f71db23401cc071b3665546),
    ("noashh_NA", 0x033c073366152b6b01535e15dd966a3a8039169584d06e27d92a69889b720d44e1),
    ("nxtswe_EU", 0x032fb104e5eaa704a38a52c126af8f67e870d70f82977e5b2f093d5c1c21ae5899),
    ("polycryptoblog_NA", 0x02708dcda7c45fb54b78469673c2587bfdd126e381654819c4c23df0e00b679622),
    ("pondsea_AR", 0x032e1c213787312099158f2d74a89e8240a991d162d4ce8017d8504d1d7004f735),
    ("pondsea_EU", 0x0225aa6f6f19e543180b31153d9e6d55d41bc7ec2ba191fd29f19a2f973544e29d),
    ("pondsea_NA", 0x031bcfdbb62268e2ff8dfffeb9ddff7fe95fca46778c77eebff9c3829dfa1bb411),
    ("pondsea_SH", 0x02209073bc0943451498de57f802650311b1f12aa6deffcd893da198a544c04f36),
    ("popcornbag_AR", 0x02761f106fb34fbfc5ddcc0c0aa831ed98e462a908550b280a1f7bd32c060c6fa3),
    ("popcornbag_NA", 0x03c6085c7fdfff70988fda9b197371f1caf8397f1729a844790e421ee07b3a93e8),
    ("ptytrader_NA", 0x0328c61467148b207400b23875234f8a825cce65b9c4c9b664f47410b8b8e3c222),
    ("ptytrader_SH", 0x0250c93c492d8d5a6b565b90c22bee07c2d8701d6118c6267e99a4efd3c7748fa4),
    ("rnr_AR", 0x029bdb08f931c0e98c2c4ba4ef45c8e33a34168cb2e6bf953cef335c359d77bfcd),
    ("rnr_EU", 0x03f5c08dadffa0ffcafb8dd7ffc38c22887bd02702a6c9ac3440deddcf2837692b),
    ("rnr_NA", 0x02e17c5f8c3c80f584ed343b8dcfa6d710dfef0889ec1e7728ce45ce559347c58c),
    ("rnr_SH", 0x037536fb9bdfed10251f71543fb42679e7c52308bcd12146b2568b9a818d8b8377),
    ("titomane_AR", 0x03cda6ca5c2d02db201488a54a548dbfc10533bdc275d5ea11928e8d6ab33c2185),
    ("titomane_EU", 0x02e41feded94f0cc59f55f82f3c2c005d41da024e9a805b41105207ef89aa4bfbd),
    ("titomane_SH", 0x035f49d7a308dd9a209e894321f010d21b7793461b0c89d6d9231a3fe5f68d9960),
    ("vanbreuk_EU", 0x024f3cad7601d2399c131fd070e797d9cd8533868685ddbe515daa53c2e26004c3),
    ("xrobesx_NA", 0x03f0cc6d142d14a40937f12dbd99dbd9021328f45759e26f1877f2a838876709e1),
    ("xxspot1_XX", 0x02ef445a392fcaf3ad4176a5da7f43580e8056594e003eba6559a713711a27f955),
    ("xxspot2_XX", 0x03d85b221ea72ebcd25373e7961f4983d12add66a92f899deaf07bab1d8b6f5573)
  ],
  [
    ("0dev1_jl777", 0x03b7621b44118017a16043f19b30cc8a4cfe068ac4e42417bae16ba460c80f3828),
    ("0dev2_kolo", 0x030f34af4b908fb8eb2099accb56b8d157d49f6cfb691baa80fdd34f385efed961),
    ("0dev3_kolo", 0x025af9d2b2a05338478159e9ac84543968fd18c45fd9307866b56f33898653b014),
    ("0dev4_decker", 0x028eea44a09674dda00d88ffd199a09c9b75ba9782382cc8f1e97c0fd565fe5707),
    ("a-team_SH", 0x03b59ad322b17cb94080dc8e6dc10a0a865de6d47c16fb5b1a0b5f77f9507f3cce),
    ("artik_AR", 0x029acf1dcd9f5ff9c455f8bb717d4ae0c703e089d16cf8424619c491dff5994c90),
    ("artik_EU", 0x03f54b2c24f82632e3cdebe4568ba0acf487a80f8a89779173cdb78f74514847ce),
    ("artik_NA", 0x0224e31f93eff0cc30eaf0b2389fbc591085c0e122c4d11862c1729d090106c842),
    ("artik_SH", 0x02bdd8840a34486f38305f311c0e2ae73e84046f6e9c3dd3571e32e58339d20937),
    ("badass_EU", 0x0209d48554768dd8dada988b98aca23405057ac4b5b46838a9378b95c3e79b9b9e),
    ("badass_NA", 0x02afa1a9f948e1634a29dc718d218e9d150c531cfa852843a1643a02184a63c1a7),
    ("batman_AR", 0x033ecb640ec5852f42be24c3bf33ca123fb32ced134bed6aa2ba249cf31b0f2563),
    ("batman_SH", 0x02ca5898931181d0b8aafc75ef56fce9c43656c0b6c9f64306e7c8542f6207018c),
    ("ca333_EU", 0x03fc87b8c804f12a6bd18efd43b0ba2828e4e38834f6b44c0bfee19f966a12ba99),
    ("chainmakers_EU", 0x02f3b08938a7f8d2609d567aebc4989eeded6e2e880c058fdf092c5da82c3bc5ee),
    ("chainmakers_NA", 0x0276c6d1c65abc64c8559710b8aff4b9e33787072d3dda4ec9a47b30da0725f57a),
    ("chainstrike_SH", 0x0370bcf10575d8fb0291afad7bf3a76929734f888228bc49e35c5c49b336002153),
    ("cipi_AR", 0x02c4f89a5b382750836cb787880d30e23502265054e1c327a5bfce67116d757ce8),
    ("cipi_NA", 0x02858904a2a1a0b44df4c937b65ee1f5b66186ab87a751858cf270dee1d5031f18),
    ("crackers_EU", 0x03bc819982d3c6feb801ec3b720425b017d9b6ee9a40746b84422cbbf929dc73c3),
    ("crackers_NA", 0x03205049103113d48c7c7af811b4c8f194dafc43a50d5313e61a22900fc1805b45),
    ("dwy_EU", 0x0259c646288580221fdf0e92dbeecaee214504fdc8bbdf4a3019d6ec18b7540424),
    ("emmanux_SH", 0x033f316114d950497fc1d9348f03770cd420f14f662ab2db6172df44c389a2667a),
    ("etszombi_EU", 0x0281b1ad28d238a2b217e0af123ce020b79e91b9b10ad65a7917216eda6fe64bf7),
    ("fullmoon_AR", 0x03380314c4f42fa854df8c471618751879f9e8f0ff5dbabda2bd77d0f96cb35676),
    ("fullmoon_NA", 0x030216211d8e2a48bae9e5d7eb3a42ca2b7aae8770979a791f883869aea2fa6eef),
    ("fullmoon_SH", 0x03f34282fa57ecc7aba8afaf66c30099b5601e98dcbfd0d8a58c86c20d8b692c64),
    ("goldenman_EU", 0x02d6f13a8f745921cdb811e32237bb98950af1a5952be7b3d429abd9152f8e388d),
    ("indenodes_AR", 0x02ec0fa5a40f47fd4a38ea5c89e375ad0b6ddf4807c99733c9c3dc15fb978ee147),
    ("indenodes_EU", 0x0221387ff95c44cb52b86552e3ec118a3c311ca65b75bf807c6c07eaeb1be8303c),
    ("indenodes_NA", 0x02698c6f1c9e43b66e82dbb163e8df0e5a2f62f3a7a882ca387d82f86e0b3fa988),
    ("indenodes_SH", 0x0334e6e1ec8285c4b85bd6dae67e17d67d1f20e7328efad17ce6fd24ae97cdd65e),
    ("jackson_AR", 0x038ff7cfe34cb13b524e0941d5cf710beca2ffb7e05ddf15ced7d4f14fbb0a6f69),
    ("jeezy_EU", 0x023cb3e593fb85c5659688528e9a4f1c4c7f19206edc7e517d20f794ba686fd6d6),
    ("karasugoi_NA", 0x02a348b03b9c1a8eac1b56f85c402b041c9bce918833f2ea16d13452309052a982),
    ("komodoninja_EU", 0x038e567b99806b200b267b27bbca2abf6a3e8576406df5f872e3b38d30843cd5ba),
    ("komodoninja_SH", 0x033178586896915e8456ebf407b1915351a617f46984001790f0cce3d6f3ada5c2),
    ("komodopioneers_SH", 0x033ace50aedf8df70035b962a805431363a61cc4e69d99d90726a2d48fb195f68c),
    ("libscott_SH", 0x03301a8248d41bc5dc926088a8cf31b65e2daf49eed7eb26af4fb03aae19682b95),
    ("lukechilds_AR", 0x031aa66313ee024bbee8c17915cf7d105656d0ace5b4a43a3ab5eae1e14ec02696),
    ("madmax_AR", 0x03891555b4a4393d655bf76f0ad0fb74e5159a615b6925907678edc2aac5e06a75),
    ("meshbits_AR", 0x02957fd48ae6cb361b8a28cdb1b8ccf5067ff68eb1f90cba7df5f7934ed8eb4b2c),
    ("meshbits_SH", 0x025c6e94877515dfd7b05682b9cc2fe4a49e076efe291e54fcec3add78183c1edb),
    ("metaphilibert_AR", 0x02adad675fae12b25fdd0f57250b0caf7f795c43f346153a31fe3e72e7db1d6ac6),
    ("metaphilibert_SH", 0x0284af1a5ef01503e6316a2ca4abf8423a794e9fc17ac6846f042b6f4adedc3309),
    ("patchkez_SH", 0x0296270f394140640f8fa15684fc11255371abb6b9f253416ea2734e34607799c4),
    ("pbca26_NA", 0x0276aca53a058556c485bbb60bdc54b600efe402a8b97f0341a7c04803ce204cb5),
    ("peer2cloud_AR", 0x034e5563cb885999ae1530bd66fab728e580016629e8377579493b386bf6cebb15),
    ("peer2cloud_SH", 0x03396ac453b3f23e20f30d4793c5b8ab6ded6993242df4f09fd91eb9a4f8aede84),
    ("polycryptoblog_NA", 0x02708dcda7c45fb54b78469673c2587bfdd126e381654819c4c23df0e00b679622),
    ("hyper_AR", 0x020f2f984d522051bd5247b61b080b4374a7ab389d959408313e8062acad3266b4),
    ("hyper_EU", 0x03d00cf9ceace209c59fb013e112a786ad583d7de5ca45b1e0df3b4023bb14bf51),
    ("hyper_SH", 0x0383d0b37f59f4ee5e3e98a47e461c861d49d0d90c80e9e16f7e63686a2dc071f3),
    ("hyper_NA", 0x03d91c43230336c0d4b769c9c940145a8c53168bf62e34d1bccd7f6cfc7e5592de),
    ("popcornbag_AR", 0x02761f106fb34fbfc5ddcc0c0aa831ed98e462a908550b280a1f7bd32c060c6fa3),
    ("popcornbag_NA", 0x03c6085c7fdfff70988fda9b197371f1caf8397f1729a844790e421ee07b3a93e8),
    ("alien_AR", 0x0348d9b1fc6acf81290405580f525ee49b4749ed4637b51a28b18caa26543b20f0),
    ("alien_EU", 0x020aab8308d4df375a846a9e3b1c7e99597b90497efa021d50bcf1bbba23246527),
    ("thegaltmines_NA", 0x031bea28bec98b6380958a493a703ddc3353d7b05eb452109a773eefd15a32e421),
    ("titomane_AR", 0x029d19215440d8cb9cc6c6b7a4744ae7fb9fb18d986e371b06aeb34b64845f9325),
    ("titomane_EU", 0x0360b4805d885ff596f94312eed3e4e17cb56aa8077c6dd78d905f8de89da9499f),
    ("titomane_SH", 0x03573713c5b20c1e682a2e8c0f8437625b3530f278e705af9b6614de29277a435b),
    ("webworker01_NA", 0x03bb7d005e052779b1586f071834c5facbb83470094cff5112f0072b64989f97d7),
    ("xrobesx_NA", 0x03f0cc6d142d14a40937f12dbd99dbd9021328f45759e26f1877f2a838876709e1)
  ],
  [
    ("madmax_NA", 0x0237e0d3268cebfa235958808db1efc20cc43b31100813b1f3e15cc5aa647ad2c3),
    ("alright_AR", 0x020566fe2fb3874258b2d3cf1809a5d650e0edc7ba746fa5eec72750c5188c9cc9),
    ("strob_NA", 0x0206f7a2e972d9dfef1c424c731503a0a27de1ba7a15a91a362dc7ec0d0fb47685),
    ("dwy_EU", 0x021c7cf1f10c4dc39d13451123707ab780a741feedab6ac449766affe37515a29e),
    ("phm87_SH", 0x021773a38db1bc3ede7f28142f901a161c7b7737875edbb40082a201c55dcf0add),
    ("chainmakers_NA", 0x02285d813c30c0bf7eefdab1ff0a8ad08a07a0d26d8b95b3943ce814ac8e24d885),
    ("indenodes_EU", 0x0221387ff95c44cb52b86552e3ec118a3c311ca65b75bf807c6c07eaeb1be8303c),
    ("blackjok3r_SH", 0x021eac26dbad256cbb6f74d41b10763183ee07fb609dbd03480dd50634170547cc),
    ("chainmakers_EU", 0x03fdf5a3fce8db7dee89724e706059c32e5aa3f233a6b6cc256fea337f05e3dbf7),
    ("titomane_AR", 0x023e3aa9834c46971ff3e7cb86a200ec9c8074a9566a3ea85d400d5739662ee989),
    ("fullmoon_SH", 0x023b7252968ea8a955cd63b9e57dee45a74f2d7ba23b4e0595572138ad1fb42d21),
    ("indenodes_NA", 0x02698c6f1c9e43b66e82dbb163e8df0e5a2f62f3a7a882ca387d82f86e0b3fa988),
    ("chmex_EU", 0x0281304ebbcc39e4f09fda85f4232dd8dacd668e20e5fc11fba6b985186c90086e),
    ("metaphilibert_SH", 0x0284af1a5ef01503e6316a2ca4abf8423a794e9fc17ac6846f042b6f4adedc3309),
    ("ca333_DEV", 0x02856843af2d9457b5b1c907068bef6077ea0904cc8bd4df1ced013f64bf267958),
    ("cipi_NA", 0x02858904a2a1a0b44df4c937b65ee1f5b66186ab87a751858cf270dee1d5031f18),
    ("pungocloud_SH", 0x024dfc76fa1f19b892be9d06e985d0c411e60dbbeb36bd100af9892a39555018f6),
    ("voskcoin_EU", 0x034190b1c062a04124ad15b0fa56dfdf34aa06c164c7163b6aec0d654e5f118afb),
    ("decker_DEV", 0x028eea44a09674dda00d88ffd199a09c9b75ba9782382cc8f1e97c0fd565fe5707),
    ("cryptoeconomy_EU", 0x0290ab4937e85246e048552df3e9a66cba2c1602db76e03763e16c671e750145d1),
    ("etszombi_EU", 0x0293ea48d8841af7a419a24d9da11c34b39127ef041f847651bae6ab14dcd1f6b4),
    ("karasugoi_NA", 0x02a348b03b9c1a8eac1b56f85c402b041c9bce918833f2ea16d13452309052a982),
    ("pirate_AR", 0x03e29c90354815a750db8ea9cb3c1b9550911bb205f83d0355a061ac47c4cf2fde),
    ("metaphilibert_AR", 0x02adad675fae12b25fdd0f57250b0caf7f795c43f346153a31fe3e72e7db1d6ac6),
    ("zatjum_SH", 0x02d6b0c89cacd58a0af038139a9a90c9e02cd1e33803a1f15fceabea1f7e9c263a),
    ("madmax_AR", 0x03c5941fe49d673c094bc8e9bb1a95766b4670c88be76d576e915daf2c30a454d3),
    ("lukechilds_NA", 0x03f1051e62c2d280212481c62fe52aab0a5b23c95de5b8e9ad5f80d8af4277a64b),
    ("cipi_AR", 0x02c4f89a5b382750836cb787880d30e23502265054e1c327a5bfce67116d757ce8),
    ("tonyl_AR", 0x02cc8bc862f2b65ad4f99d5f68d3011c138bf517acdc8d4261166b0be8f64189e1),
    ("infotech_DEV", 0x0345ad4ab5254782479f6322c369cec77a7535d2f2162d103d666917d5e4f30c4c),
    ("fullmoon_NA", 0x032c716701fe3a6a3f90a97b9d874a9d6eedb066419209eed7060b0cc6b710c60b),
    ("etszombi_AR", 0x02e55e104aa94f70cde68165d7df3e162d4410c76afd4643b161dea044aa6d06ce),
    ("node-9_EU", 0x0372e5b51e86e2392bb15039bac0c8f975b852b45028a5e43b324c294e9f12e411),
    ("phba2061_EU", 0x03f6bd15dba7e986f0c976ea19d8a9093cb7c989d499f1708a0386c5c5659e6c4e),
    ("indenodes_AR", 0x02ec0fa5a40f47fd4a38ea5c89e375ad0b6ddf4807c99733c9c3dc15fb978ee147),
    ("and1-89_EU", 0x02736cbf8d7b50835afd50a319f162dd4beffe65f2b1dc6b90e64b32c8e7849ddd),
    ("komodopioneers_SH", 0x032a238a5747777da7e819cfa3c859f3677a2daf14e4dce50916fc65d00ad9c52a),
    ("komodopioneers_EU", 0x036d02425916444fff8cc7203fcbfc155c956dda5ceb647505836bef59885b6866),
    ("d0ct0r_NA", 0x0303725d8525b6f969122faf04152653eb4bf34e10de92182263321769c334bf58),
    ("kolo_DEV", 0x02849e12199dcc27ba09c3902686d2ad0adcbfcee9d67520e9abbdda045ba83227),
    ("peer2cloud_AR", 0x02acc001fe1fe8fd68685ba26c0bc245924cb592e10cec71e9917df98b0e9d7c37),
    ("webworker01_SH", 0x031e50ba6de3c16f99d414bb89866e578d963a54bde7916c810608966fb5700776),
    ("webworker01_NA", 0x032735e9cad1bb00eaababfa6d27864fa4c1db0300c85e01e52176be2ca6a243ce),
    ("pbca26_NA", 0x03a97606153d52338bcffd1bf19bb69ef8ce5a7cbdc2dbc3ff4f89d91ea6bbb4dc),
    ("indenodes_SH", 0x0334e6e1ec8285c4b85bd6dae67e17d67d1f20e7328efad17ce6fd24ae97cdd65e),
    ("pirate_NA", 0x0255e32d8a56671dee8aa7f717debb00efa7f0086ee802de0692f2d67ee3ee06ee),
    ("lukechilds_AR", 0x025c6a73ff6d750b9ddf6755b390948cffdd00f344a639472d398dd5c6b4735d23),
    ("dragonhound_NA", 0x0224a9d951d3a06d8e941cc7362b788bb1237bb0d56cc313e797eb027f37c2d375),
    ("fullmoon_AR", 0x03da64dd7cd0db4c123c2f79d548a96095a5a103e5b9d956e9832865818ffa7872),
    ("chainzilla_SH", 0x0360804b8817fd25ded6e9c0b50e3b0782ac666545b5416644198e18bc3903d9f9),
    ("titomane_EU", 0x03772ac0aad6b0e9feec5e591bff5de6775d6132e888633e73d3ba896bdd8e0afb),
    ("jeezy_EU", 0x037f182facbad35684a6e960699f5da4ba89e99f0d0d62a87e8400dd086c8e5dd7),
    ("titomane_SH", 0x03850fdddf2413b51790daf51dd30823addb37313c8854b508ea6228205047ef9b),
    ("alien_AR", 0x03911a60395801082194b6834244fa78a3c30ff3e888667498e157b4aa80b0a65f),
    ("pirate_EU", 0x03fff24efd5648870a23badf46e26510e96d9e79ce281b27cfe963993039dd1351),
    ("thegaltmines_NA", 0x02db1a16c7043f45d6033ccfbd0a51c2d789b32db428902f98b9e155cf0d7910ed),
    ("computergenie_NA", 0x03a78ae070a5e9e935112cf7ea8293f18950f1011694ea0260799e8762c8a6f0a4),
    ("nutellalicka_SH", 0x02f7d90d0510c598ce45915e6372a9cd0ba72664cb65ce231f25d526fc3c5479fc),
    ("chainstrike_SH", 0x03b806be3bf7a1f2f6290ec5c1ea7d3ea57774dcfcf2129a82b2569e585100e1cb),
    ("dwy_SH", 0x036536d2d52d85f630b68b050f29ea1d7f90f3b42c10f8c5cdf3dbe1359af80aff),
    ("alien_EU", 0x03bb749e337b9074465fa28e757b5aa92cb1f0fea1a39589bca91a602834d443cd),
    ("gt_AR", 0x0348430538a4944d3162bb4749d8c5ed51299c2434f3ee69c11a1f7815b3f46135),
    ("patchkez_SH", 0x03f45e9beb5c4cd46525db8195eb05c1db84ae7ef3603566b3d775770eba3b96ee),
    ("decker_AR", 0x03ffdf1a116300a78729608d9930742cd349f11a9d64fcc336b8f18592dd9c91bc)
  ],
  [
    ("madmax_NA", 0x0237e0d3268cebfa235958808db1efc20cc43b31100813b1f3e15cc5aa647ad2c3),
    ("alright_AR", 0x020566fe2fb3874258b2d3cf1809a5d650e0edc7ba746fa5eec72750c5188c9cc9),
    ("strob_NA", 0x0206f7a2e972d9dfef1c424c731503a0a27de1ba7a15a91a362dc7ec0d0fb47685),
    ("hunter_EU", 0x0378224b4e9d8a0083ce36f2963ec0a4e231ec06b0c780de108e37f41181a89f6a),
    ("phm87_SH", 0x021773a38db1bc3ede7f28142f901a161c7b7737875edbb40082a201c55dcf0add),
    ("chainmakers_NA", 0x02285d813c30c0bf7eefdab1ff0a8ad08a07a0d26d8b95b3943ce814ac8e24d885),
    ("indenodes_EU", 0x0221387ff95c44cb52b86552e3ec118a3c311ca65b75bf807c6c07eaeb1be8303c),
    ("blackjok3r_SH", 0x021eac26dbad256cbb6f74d41b10763183ee07fb609dbd03480dd50634170547cc),
    ("chainmakers_EU", 0x03fdf5a3fce8db7dee89724e706059c32e5aa3f233a6b6cc256fea337f05e3dbf7),
    ("titomane_AR", 0x023e3aa9834c46971ff3e7cb86a200ec9c8074a9566a3ea85d400d5739662ee989),
    ("fullmoon_SH", 0x023b7252968ea8a955cd63b9e57dee45a74f2d7ba23b4e0595572138ad1fb42d21),
    ("indenodes_NA", 0x02698c6f1c9e43b66e82dbb163e8df0e5a2f62f3a7a882ca387d82f86e0b3fa988),
    ("chmex_EU", 0x0281304ebbcc39e4f09fda85f4232dd8dacd668e20e5fc11fba6b985186c90086e),
    ("metaphilibert_SH", 0x0284af1a5ef01503e6316a2ca4abf8423a794e9fc17ac6846f042b6f4adedc3309),
    ("ca333_DEV", 0x02856843af2d9457b5b1c907068bef6077ea0904cc8bd4df1ced013f64bf267958),
    ("cipi_NA", 0x02858904a2a1a0b44df4c937b65ee1f5b66186ab87a751858cf270dee1d5031f18),
    ("pungocloud_SH", 0x024dfc76fa1f19b892be9d06e985d0c411e60dbbeb36bd100af9892a39555018f6),
    ("voskcoin_EU", 0x034190b1c062a04124ad15b0fa56dfdf34aa06c164c7163b6aec0d654e5f118afb),
    ("decker_DEV", 0x028eea44a09674dda00d88ffd199a09c9b75ba9782382cc8f1e97c0fd565fe5707),
    ("cryptoeconomy_EU", 0x0290ab4937e85246e048552df3e9a66cba2c1602db76e03763e16c671e750145d1),
    ("etszombi_EU", 0x0293ea48d8841af7a419a24d9da11c34b39127ef041f847651bae6ab14dcd1f6b4),
    ("karasugoi_NA", 0x02a348b03b9c1a8eac1b56f85c402b041c9bce918833f2ea16d13452309052a982),
    ("pirate_AR", 0x03e29c90354815a750db8ea9cb3c1b9550911bb205f83d0355a061ac47c4cf2fde),
    ("metaphilibert_AR", 0x02adad675fae12b25fdd0f57250b0caf7f795c43f346153a31fe3e72e7db1d6ac6),
    ("zatjum_SH", 0x02d6b0c89cacd58a0af038139a9a90c9e02cd1e33803a1f15fceabea1f7e9c263a),
    ("madmax_AR", 0x03c5941fe49d673c094bc8e9bb1a95766b4670c88be76d576e915daf2c30a454d3),
    ("lukechilds_NA", 0x03f1051e62c2d280212481c62fe52aab0a5b23c95de5b8e9ad5f80d8af4277a64b),
    ("cipi_AR", 0x02c4f89a5b382750836cb787880d30e23502265054e1c327a5bfce67116d757ce8),
    ("tonyl_AR", 0x02cc8bc862f2b65ad4f99d5f68d3011c138bf517acdc8d4261166b0be8f64189e1),
    ("infotech_DEV", 0x0345ad4ab5254782479f6322c369cec77a7535d2f2162d103d666917d5e4f30c4c),
    ("fullmoon_NA", 0x032c716701fe3a6a3f90a97b9d874a9d6eedb066419209eed7060b0cc6b710c60b),
    ("etszombi_AR", 0x02e55e104aa94f70cde68165d7df3e162d4410c76afd4643b161dea044aa6d06ce),
    ("node-9_EU", 0x0372e5b51e86e2392bb15039bac0c8f975b852b45028a5e43b324c294e9f12e411),
    ("phba2061_EU", 0x03f6bd15dba7e986f0c976ea19d8a9093cb7c989d499f1708a0386c5c5659e6c4e),
    ("indenodes_AR", 0x02ec0fa5a40f47fd4a38ea5c89e375ad0b6ddf4807c99733c9c3dc15fb978ee147),
    ("and1-89_EU", 0x02736cbf8d7b50835afd50a319f162dd4beffe65f2b1dc6b90e64b32c8e7849ddd),
    ("komodopioneers_SH", 0x032a238a5747777da7e819cfa3c859f3677a2daf14e4dce50916fc65d00ad9c52a),
    ("komodopioneers_EU", 0x036d02425916444fff8cc7203fcbfc155c956dda5ceb647505836bef59885b6866),
    ("d0ct0r_NA", 0x0303725d8525b6f969122faf04152653eb4bf34e10de92182263321769c334bf58),
    ("kolo_DEV", 0x02849e12199dcc27ba09c3902686d2ad0adcbfcee9d67520e9abbdda045ba83227),
    ("peer2cloud_AR", 0x02acc001fe1fe8fd68685ba26c0bc245924cb592e10cec71e9917df98b0e9d7c37),
    ("webworker01_SH", 0x031e50ba6de3c16f99d414bb89866e578d963a54bde7916c810608966fb5700776),
    ("webworker01_NA", 0x032735e9cad1bb00eaababfa6d27864fa4c1db0300c85e01e52176be2ca6a243ce),
    ("pbca26_NA", 0x03a97606153d52338bcffd1bf19bb69ef8ce5a7cbdc2dbc3ff4f89d91ea6bbb4dc),
    ("indenodes_SH", 0x0334e6e1ec8285c4b85bd6dae67e17d67d1f20e7328efad17ce6fd24ae97cdd65e),
    ("pirate_NA", 0x0255e32d8a56671dee8aa7f717debb00efa7f0086ee802de0692f2d67ee3ee06ee),
    ("lukechilds_AR", 0x025c6a73ff6d750b9ddf6755b390948cffdd00f344a639472d398dd5c6b4735d23),
    ("dragonhound_NA", 0x0224a9d951d3a06d8e941cc7362b788bb1237bb0d56cc313e797eb027f37c2d375),
    ("fullmoon_AR", 0x03da64dd7cd0db4c123c2f79d548a96095a5a103e5b9d956e9832865818ffa7872),
    ("chainzilla_SH", 0x0360804b8817fd25ded6e9c0b50e3b0782ac666545b5416644198e18bc3903d9f9),
    ("titomane_EU", 0x03772ac0aad6b0e9feec5e591bff5de6775d6132e888633e73d3ba896bdd8e0afb),
    ("jeezy_EU", 0x037f182facbad35684a6e960699f5da4ba89e99f0d0d62a87e8400dd086c8e5dd7),
    ("titomane_SH", 0x03850fdddf2413b51790daf51dd30823addb37313c8854b508ea6228205047ef9b),
    ("alien_AR", 0x03911a60395801082194b6834244fa78a3c30ff3e888667498e157b4aa80b0a65f),
    ("pirate_EU", 0x03fff24efd5648870a23badf46e26510e96d9e79ce281b27cfe963993039dd1351),
    ("thegaltmines_NA", 0x02db1a16c7043f45d6033ccfbd0a51c2d789b32db428902f98b9e155cf0d7910ed),
    ("computergenie_NA", 0x03a78ae070a5e9e935112cf7ea8293f18950f1011694ea0260799e8762c8a6f0a4),
    ("nutellalicka_SH", 0x02f7d90d0510c598ce45915e6372a9cd0ba72664cb65ce231f25d526fc3c5479fc),
    ("chainstrike_SH", 0x03b806be3bf7a1f2f6290ec5c1ea7d3ea57774dcfcf2129a82b2569e585100e1cb),
    ("hunter_SH", 0x02407db70ad30ce4dfaee8b4ae35fae88390cad2b0ba0373fdd6231967537ccfdf),
    ("alien_EU", 0x03bb749e337b9074465fa28e757b5aa92cb1f0fea1a39589bca91a602834d443cd),
    ("gt_AR", 0x0348430538a4944d3162bb4749d8c5ed51299c2434f3ee69c11a1f7815b3f46135),
    ("patchkez_SH", 0x03f45e9beb5c4cd46525db8195eb05c1db84ae7ef3603566b3d775770eba3b96ee),
    ("decker_AR", 0x03ffdf1a116300a78729608d9930742cd349f11a9d64fcc336b8f18592dd9c91bc)
  ],
  [
    ("alien_AR", 0x03911a60395801082194b6834244fa78a3c30ff3e888667498e157b4aa80b0a65f),
    ("alien_EU", 0x03bb749e337b9074465fa28e757b5aa92cb1f0fea1a39589bca91a602834d443cd),
    ("strob_NA", 0x02a1c0bd40b294f06d3e44a52d1b2746c260c475c725e9351f1312e49e01c9a405),
    ("titomane_SH", 0x020014ad4eedf6b1aeb0ad3b101a58d0a2fc570719e46530fd98d4e585f63eb4ae),
    ("fullmoon_AR", 0x03b251095e747f759505ec745a4bbff9a768b8dce1f65137300b7c21efec01a07a),
    ("phba2061_EU", 0x03a9492d2a1601d0d98cfe94d8adf9689d1bb0e600088127a4f6ca937761fb1c66),
    ("fullmoon_NA", 0x03931c1d654a99658998ce0ddae108d825943a821d1cddd85e948ac1d483f68fb6),
    ("fullmoon_SH", 0x03c2a1ed9ddb7bb8344328946017b9d8d1357b898957dd6aaa8c190ae26740b9ff),
    ("madmax_AR", 0x022be5a2829fa0291f9a51ff7aeceef702eef581f2611887c195e29da49092e6de),
    ("titomane_EU", 0x0285cf1fdba761daf6f1f611c32d319cd58214972ef822793008b69dde239443dd),
    ("cipi_NA", 0x022c6825a24792cc3b010b1531521eba9b5e2662d640ed700fd96167df37e75239),
    ("indenodes_SH", 0x0334e6e1ec8285c4b85bd6dae67e17d67d1f20e7328efad17ce6fd24ae97cdd65e),
    ("decker_AR", 0x03ffdf1a116300a78729608d9930742cd349f11a9d64fcc336b8f18592dd9c91bc),
    ("indenodes_EU", 0x0221387ff95c44cb52b86552e3ec118a3c311ca65b75bf807c6c07eaeb1be8303c),
    ("madmax_NA", 0x02997b7ab21b86bbea558ae79acc35d62c9cedf441578f78112f986d72e8eece08),
    ("chainzilla_SH", 0x02288ba6dc57936b59d60345e397d62f5d7e7d975f34ed5c2f2e23288325661563),
    ("peer2cloud_AR", 0x0250e7e43a3535731b051d1bcc7dc88fbb5163c3fe41c5dee72bd973bcc4dca9f2),
    ("pirate_EU", 0x0231c0f50a06655c3d2edf8d7e722d290195d49c78d50de7786b9d196e8820c848),
    ("webworker01_NA", 0x02dfd5f3cef1142879a7250752feb91ddd722c497fb98c7377c0fcc5ccc201bd55),
    ("zatjum_SH", 0x036066fd638b10e555597623e97e032b28b4d1fa5a13c2b0c80c420dbddad236c2),
    ("titomane_AR", 0x0268203a4c80047edcd66385c22e764ea5fb8bc42edae389a438156e7dca9a8251),
    ("chmex_EU", 0x025b7209ba37df8d9695a23ea706ea2594863ab09055ca6bf485855937f3321d1d),
    ("indenodes_NA", 0x02698c6f1c9e43b66e82dbb163e8df0e5a2f62f3a7a882ca387d82f86e0b3fa988),
    ("patchkez_SH", 0x02cabd6c5fc0b5476c7a01e9d7b907e9f0a051d7f4f731959955d3f6b18ee9a242),
    ("metaphilibert_AR", 0x02adad675fae12b25fdd0f57250b0caf7f795c43f346153a31fe3e72e7db1d6ac6),
    ("etszombi_EU", 0x0341adbf238f33a33cc895633db996c3ad01275313ac6641e046a3db0b27f1c880),
    ("pirate_NA", 0x02207f27a13625a0b8caef6a7bb9de613ff16e4a5f232da8d7c235c7c5bad72ffe),
    ("metaphilibert_SH", 0x0284af1a5ef01503e6316a2ca4abf8423a794e9fc17ac6846f042b6f4adedc3309),
    ("indenodes_AR", 0x02ec0fa5a40f47fd4a38ea5c89e375ad0b6ddf4807c99733c9c3dc15fb978ee147),
    ("chainmakers_NA", 0x029415a1609c33dfe4a1016877ba35f9265d25d737649f307048efe96e76512877),
    ("mihailo_EU", 0x037f9563f30c609b19fd435a19b8bde7d6db703012ba1aba72e9f42a87366d1941),
    ("tonyl_AR", 0x0299684d7291abf90975fa493bf53212cf1456c374aa36f83cc94daece89350ae9),
    ("alien_NA", 0x03bea1ac333b95c8669ec091907ea8713cae26f74b9e886e13593400e21c4d30a8),
    ("pungocloud_SH", 0x025b97d8c23effaca6fa7efacce20bf54df73081b63004a0fe22f3f98fece5669f),
    ("node9_EU", 0x029ffa793b5c3248f8ea3da47fa3cf1810dada5af032ecd0e37bab5b92dd63b34e),
    ("smdmitry_AR", 0x022a2a45979a6631a25e4c96469423de720a2f4c849548957c35a35c91041ee7ac),
    ("nodeone_NA", 0x03f9dd0484e81174fd50775cb9099691c7d140ff00c0f088847e38dc87da67eb9b),
    ("gcharang_SH", 0x02ec4172eab854a0d8cd32bc691c83e93975a3df5a4a453a866736c56e025dc359),
    ("cipi_EU", 0x02f2b6defff1c544202f66e47cfd6909c54d67c7c39b9c2a99f137dbaf6d0bd8fa),
    ("etszombi_AR", 0x0329944b0ac65b6760787ede042a2fde0be9fca1d80dd756bc0ee0b98d389b7682),
    ("pbca26_NA", 0x0387e0fb6f2ca951154c87e16c6cbf93a69862bb165c1a96bcd8722b3af24fe533),
    ("mylo_SH", 0x03b58f57822e90fe105e6efb63fd8666033ea503d6cc165b1e479bbd8c2ba033e8),
    ("swisscertifiers_EU", 0x03ebcc71b42d88994b8b2134bcde6cb269bd7e71a9dd7616371d9294ec1c1902c5),
    ("marmarachain_AR", 0x035bbd81a098172592fe97f50a0ce13cbbf80e55cc7862eccdbd7310fab8a90c4c),
    ("karasugoi_NA", 0x0262cf2559703464151153c12e00c4b67a969e39b330301fdcaa6667d7eb02c57d),
    ("phm87_SH", 0x021773a38db1bc3ede7f28142f901a161c7b7737875edbb40082a201c55dcf0add),
    ("oszy_EU", 0x03d1ffd680491b98a3ec5541715681d1a45293c8efb1722c32392a1d792622596a),
    ("chmex_AR", 0x036c856ea778ea105b93c0be187004d4e51161eda32888aa307b8f72d490884005),
    ("dragonhound_NA", 0x0227e5cad3731e381df157de189527aac8eb50d82a13ce2bd81153984ebc749515),
    ("strob_SH", 0x025ceac4256cef83ca4b110f837a71d70a5a977ecfdf807335e00bc78b560d451a),
    ("madmax_EU", 0x02ea0cf4d6d151d0528b07efa79cc7403d77cb9195e2e6c8374f5074b9a787e287),
    ("dudezmobi_AR", 0x027ecd974ff2a27a37ee69956cd2e6bb31a608116206f3e31ef186823420182450),
    ("daemonfox_NA", 0x022d6f4885f53cbd668ad7d03d4f8e830c233f74e3a918da1ed247edfc71820b3d),
    ("nutellalicka_SH", 0x02f4b1e71bc865a79c05fe333952b97cb040d8925d13e83925e170188b3011269b),
    ("starfleet_EU", 0x025c7275bd750936862b47793f1f0bb3cbed60fb75a48e7da016e557925fe375eb),
    ("mrlynch_AR", 0x031987dc82b087cd53e23df5480e265a5928e9243e0e11849fa12359739d8b18a4),
    ("greer_NA", 0x03e0995615d7d3cf1107effa6bdb1133e0876cf1768e923aa533a4e2ee675ec383),
    ("mcrypt_SH", 0x025faab3cc2e83bf7dad6a9463cbff86c08800e937942126f258cf219bc2320043),
    ("decker_EU", 0x03777777caebce56e17ca3aae4e16374335b156f1dd62ee3c7f8799c6b885f5560),
    ("dappvader_SH", 0x02962e2e5af746632016bc7b24d444f7c90141a5f42ce54e361b302cf455d90e6a),
    ("alright_DEV", 0x02b73a589d61691efa2ada15c006d27bc18493fea867ce6c14db3d3d28751f8ce3),
    ("artemii235_DEV", 0x03bb616b12430bdd0483653de18733597a4fd416623c7065c0e21fe9d96460add1),
    ("tonyl_DEV", 0x02d5f7fd6e25d34ab2f3318d60cdb89ff3a812ec5d0212c4c113bb12d12616cfdc),
    ("decker_DEV", 0x028eea44a09674dda00d88ffd199a09c9b75ba9782382cc8f1e97c0fd565fe5707)
  ],
  [
    ("alrighttt_DEV", 0x03483166d8663beeb48a493eec161bf506df1906153b6259f7ca617e4cb8110260),
    ("alien_AR", 0x03911a60395801082194b6834244fa78a3c30ff3e888667498e157b4aa80b0a65f),
    ("artempikulin_AR", 0x026a8ed1e4eeeb023cfb8e003e1c1de6a2b771f37e112745ffb8b6e375a9cbfdec),
    ("chmex_AR", 0x036c856ea778ea105b93c0be187004d4e51161eda32888aa307b8f72d490884005),
    ("cipi_AR", 0x033ae024cdb748e083406a2e20037017a1292079ad6a8161ae5b43f398724fea74),
    ("shadowbit_AR", 0x02909c79a198179c193fb85bbd4ba09b875a5a9bd481fec284658188b96ed43519),
    ("goldenman_AR", 0x0345b888e5de9c11871c080212ccaebf8a3d77b05fe3d535336efc5c7df334bbc7),
    ("kolo_AR", 0x0281d3c7bf067088b9572b4d906afca2083a71a38b1011878ecd347651d00af433),
    ("madmax_AR", 0x02f729b8df4dacdc8d811416eb32e98a5cc37023b42c81b77d1c00881de879a99a),
    ("mcrypt_AR", 0x029bdb33b08f96524082490f4373bc6026b92bcaef9bc521a840a799c73b75ed80),
    ("mrlynch_AR", 0x031987dc82b087cd53e23df5480e265a5928e9243e0e11849fa12359739d8b18a4),
    ("ocean_AR", 0x03c2bc8c57a001a788851fedc33ce72797ee8fe26eaa3abb1b807727e4867a3105),
    ("smdmitry_AR", 0x022a2a45979a6631a25e4c96469423de720a2f4c849548957c35a35c91041ee7ac),
    ("tokel_AR", 0x03f3bf697173e47de7bae2ae02b3d3bcf28133a47db72f2a0266061597aaa7779d),
    ("tonyl_AR", 0x029ad03929ec295e9164e2bfb9f0e0102c280d5e5212503d079d2d99ab492a9106),
    ("tonyl_DEV", 0x02342ec82b31a016b71cd1eb2f482a74f63172e1029ba2fb18f0def3bd4fc0668a),
    ("artem_DEV", 0x036b9848396ddcdb9bb58ddab2c24b710b8e4e9b0ee084a00518505ecd9e9fe174),
    ("alien_EU", 0x03bb749e337b9074465fa28e757b5aa92cb1f0fea1a39589bca91a602834d443cd),
    ("alienx_EU", 0x026afe5b112d1b39e0edafd5e051e261a676104460581f3673f26ceff7f1e6c56c),
    ("ca333_EU", 0x03ffb8072f78304c42ae9b60435f6c3296cbc72de129ae49bba175a65c31c9a7e2),
    ("chmex_EU", 0x025b7209ba37df8d9695a23ea706ea2594863ab09055ca6bf485855937f3321d1d),
    ("cipi_EU", 0x03d6e1f3a693b5d69049791005d7cb64c259a1ad85833f5a9c545d4fee29905009),
    ("cipi2_EU", 0x0202e430157486503f4bde3d3ca770c8f1e2447cf480a6b273b5265b9620f585e3),
    ("shadowbit_EU", 0x02668f5f723584f97f5e6f9196fc31018f36a6cf824c60328ad0c097a785df4745),
    ("komodopioneers_EU", 0x0351f7f2a6ecce863e4e774bfafe2e59e151c08bf8f350286763a6b8ed97274b82),
    ("madmax_EU", 0x028d04f7ccae0d9d57bfa801c4f1e32c707c17589b3c08a0ce08d44eab637eb66b),
    ("marmarachain_EU", 0x023a858bbc3f0c6df5b74243315028e968c2f299d84ea8ecc0b28b5f0e2ad24c3c),
    ("node-9_EU", 0x03c375924aac39d0c49de6690199e4d08d10fed6725988dcf5d2486661b5e3a656),
    ("slyris_EU", 0x021cb6365c13cb35aad4b70aa18b63a75d1d4b9797a0754d3d0142d6fedc83b24e),
    ("smdmitry_EU", 0x02eb3aad81778f8d6f7e5295c44ca224e5c812f5e43fc1e9ce4ebafc23324183c9),
    ("van_EU", 0x03af7f8c82f20671ca1978116353839d3e501523e379bfb52b1e05d7816bb5812f),
    ("shadowbit_DEV", 0x02ca882f153e715091a2dbc5409096f8c109d9fe6506ca7a918056dd37162b6f6e),
    ("gcharang_DEV", 0x02cb445948bf0d89f8d61102e12a5ee6e98be61ac7c2cb9ba435219ea9db967117),
    ("alien_NA", 0x03bea1ac333b95c8669ec091907ea8713cae26f74b9e886e13593400e21c4d30a8),
    ("alienx_NA", 0x02f0b3ef87629509441b1ae95f28108f258a81910e483b90e0496205e24e7069b8),
    ("cipi_NA", 0x036cc1d7476e4260601927be0fc8b748ae68d8fec8f5c498f71569a01bd92046c5),
    ("computergenie_NA", 0x03a78ae070a5e9e935112cf7ea8293f18950f1011694ea0260799e8762c8a6f0a4),
    ("dragonhound_NA", 0x02e650819f4d1cabeaad6bc5ec8c0722a89e63059a10f8b5e97c983c321608329b),
    ("hyper_NA", 0x030994a303b26df6e7c6ed456f069c5de9e200e1380bebc5ed8ebe0f834f477f3d),
    ("madmax_NA", 0x03898aec46014e8619e2369cc85073048dad05d3c5bf696d8b524db78a39ae5beb),
    ("node-9_NA", 0x02f697eed99fd21f2f0eaad81d13543a75c576f669bfddbcbeef0f7625fea2e9d5),
    ("nodeone_NA", 0x03f9dd0484e81174fd50775cb9099691c7d140ff00c0f088847e38dc87da67eb9b),
    ("pbca26_NA", 0x0332543ff1287604afd67f63af0aa0b263aef14fe1850b85db16b81462eed834fd),
    ("ptyx_NA", 0x02cbda9c43a794f2134a11815fe86dca017990269accb139e962d764c011c9a4d7),
    ("strob_NA", 0x02a1c0bd40b294f06d3e44a52d1b2746c260c475c725e9351f1312e49e01c9a405),
    ("karasugoi_NA", 0x0262cf2559703464151153c12e00c4b67a969e39b330301fdcaa6667d7eb02c57d),
    ("webworker01_NA", 0x0376558d13c31cf9c664a1b5e58f4fff7153777069bef7a66ed8c8526b99787a9e),
    ("yurii_DEV", 0x03e57c7341d2c8a3be62e1caaa28978d76a8277dea7bb484fdd8c55dc05e4e4e93),
    ("ca333_DEV", 0x03d885e292842912bd990299ebce33451a5a01cb14e4874d90770efb22e82ef40f),
    ("chmex_SH", 0x02698305eb3c27a2c724efd2152f9250739355116f201656c34b83aac2d3aebd19),
    ("collider_SH", 0x03bd0022a55a2ead52fd65b317186743374ad320f3704d459f41797e264d1ec854),
    ("dappvader_SH", 0x02bffea7911e09ad9a7df54af0c225516478d3ba138e65061aa8d4b9756bb4c8f4),
    ("drkush_SH", 0x030b31cc9528566422e25f3e9b96541ab3626c0dea0e7aa3c0b0bd96039eae2f5a),
    ("majora31_SH", 0x033bf21f039a1c832effad208d564e02e968f11e3a3aa41c42e3b748a232fb33f3),
    ("mcrypt_SH", 0x025faab3cc2e83bf7dad6a9463cbff86c08800e937942126f258cf219bc2320043),
    ("metaphilibert_SH", 0x0284af1a5ef01503e6316a2ca4abf8423a794e9fc17ac6846f042b6f4adedc3309),
    ("mylo_SH", 0x03458dca36e800d5bc121d8c0d35f9fc6282880a79fee2d7e050f887b797bc7d6e),
    ("nutellaLicka_SH", 0x03a495962a9e9eca06ee3b8ab4cd94e6ea0d87dd39d334ad85a524c4fece1a3db7),
    ("pbca26_SH", 0x02c62877e96fc414f2444edf0601abff9d5d2f9078e49fa867ba5305f3c5b3beb0),
    ("phit_SH", 0x02a9cef2141fb2af24349c1eea20f5fa8f5dba2835723778d19b23353ddcd877b1),
    ("sheeba_SH", 0x03e6578015b7f0ab78a486070435031fff7bae11256ca6a9f3d358ab03029737cb),
    ("strob_SH", 0x025ceac4256cef83ca4b110f837a71d70a5a977ecfdf807335e00bc78b560d451a),
    ("strobnidan_SH", 0x02b967fde3686d45056343e488997d4c53f25cd7ad38548cd12b136010a09295ae),
    ("dragonhound_DEV", 0x038e010c33c56b61389409eea5597fe17967398731e23185c84c472a16fc5d34ab)
  ],
  [
    ("blackice_DEV", 0x02ca882f153e715091a2dbc5409096f8c109d9fe6506ca7a918056dd37162b6f6e),
    ("blackice_AR", 0x02909c79a198179c193fb85bbd4ba09b875a5a9bd481fec284658188b96ed43519),
    ("alien_EU", 0x03bb749e337b9074465fa28e757b5aa92cb1f0fea1a39589bca91a602834d443cd),
    ("alien_NA", 0x03bea1ac333b95c8669ec091907ea8713cae26f74b9e886e13593400e21c4d30a8),
    ("alien_SH", 0x03911a60395801082194b6834244fa78a3c30ff3e888667498e157b4aa80b0a65f),
    ("alienx_EU", 0x026afe5b112d1b39e0edafd5e051e261a676104460581f3673f26ceff7f1e6c56c),
    ("alienx_NA", 0x02f0b3ef87629509441b1ae95f28108f258a81910e483b90e0496205e24e7069b8),
    ("artem.pikulin_AR", 0x026a8ed1e4eeeb023cfb8e003e1c1de6a2b771f37e112745ffb8b6e375a9cbfdec),
    ("artem.pikulin_DEV", 0x036b9848396ddcdb9bb58ddab2c24b710b8e4e9b0ee084a00518505ecd9e9fe174),
    ("blackice_EU", 0x02668f5f723584f97f5e6f9196fc31018f36a6cf824c60328ad0c097a785df4745),
    ("chmex_AR", 0x036c856ea778ea105b93c0be187004d4e51161eda32888aa307b8f72d490884005),
    ("chmex_EU", 0x025b7209ba37df8d9695a23ea706ea2594863ab09055ca6bf485855937f3321d1d),
    ("chmex_NA", 0x030c2528c29d5328243c910277e3d74aa77c9b4e145308007d2b11550731591dbe),
    ("chmex_SH", 0x02698305eb3c27a2c724efd2152f9250739355116f201656c34b83aac2d3aebd19),
    ("chmex1_SH", 0x02d27ed1cddfbaff9e47865e7df0165457e8f075f70bbea8c0498598ccf494555d),
    ("cipi_1_EU", 0x03d6e1f3a693b5d69049791005d7cb64c259a1ad85833f5a9c545d4fee29905009),
    ("cipi_2_EU", 0x0202e430157486503f4bde3d3ca770c8f1e2447cf480a6b273b5265b9620f585e3),
    ("cipi_AR", 0x033ae024cdb748e083406a2e20037017a1292079ad6a8161ae5b43f398724fea74),
    ("cipi_NA", 0x036cc1d7476e4260601927be0fc8b748ae68d8fec8f5c498f71569a01bd92046c5),
    ("computergenie_EU", 0x03a8c071036228e0900e0171f616ce1a58f0a761193551d68c4c20e70534f2e183),
    ("computergenie_NA", 0x03a78ae070a5e9e935112cf7ea8293f18950f1011694ea0260799e8762c8a6f0a4),
    ("dimxy_AR", 0x02689d0b77b1e8e8c93a102d8b689fd08179164d70e2dd585543c3896a0916e6a1),
    ("dimxy_DEV", 0x039a01cd626d5efbe7fd05a59d8e5fced53bacac589192278f9b00ad31654b6956),
    ("dragonhound_NA", 0x02e650819f4d1cabeaad6bc5ec8c0722a89e63059a10f8b5e97c983c321608329b),
    ("fediakash_AR", 0x027dfe5403f8870fb0e1b94a2b4204373b31ea73179ba500a88dd56d22855cd03b),
    ("gcharang_DEV", 0x033b82b5791c65477dd11095cf33332013df6d2bcb7aa06a6dae5f7b22b6959b0b),
    ("gcharang_SH", 0x02cb445948bf0d89f8d61102e12a5ee6e98be61ac7c2cb9ba435219ea9db967117),
    ("goldenman_AR", 0x02c11f651df6a03f1a17b9ea0b1a73c0acca7aeacd4081e09bd7dd939690af8ae1),
    ("kolo_AR", 0x028431645f923a9e383a4e37cbb7168fa34988da23d43097124fe882bdac6d175f),
    ("kolo_EU", 0x03e1287d4c14ad73ce9ddd31361a7de8df4eeeefe9460a1ff9a6b2a1242ad3b7c2),
    ("kolox_AR", 0x0289f5f64f4bb18d014c4e9f4c888f4da2b6518e88fd5b7768728c38177b66d305),
    ("komodopioneers_EU", 0x0351f7f2a6ecce863e4e774bfafe2e59e151c08bf8f350286763a6b8ed97274b82),
    ("madmax_DEV", 0x027100e6b3db2028034db651946ecde90e45be3799ebc310d39af4496772a850ad),
    ("marmarachain_EU", 0x0234e40800500370d43979586ee2cec2e777a0368d10c682e78bca30fd1630c18d),
    ("mcrypt_AR", 0x029bdb33b08f96524082490f4373bc6026b92bcaef9bc521a840a799c73b75ed80),
    ("mcrypt_SH", 0x025faab3cc2e83bf7dad6a9463cbff86c08800e937942126f258cf219bc2320043),
    ("metaphilibert_SH", 0x0284af1a5ef01503e6316a2ca4abf8423a794e9fc17ac6846f042b6f4adedc3309),
    ("mylo_NA", 0x0365a778014c216401b6ba9c28eec88f116a9a9912e145ba2dbbd065d98b493af5),
    ("mylo_SH", 0x03458dca36e800d5bc121d8c0d35f9fc6282880a79fee2d7e050f887b797bc7d6e),
    ("nodeone_NA", 0x03f9dd0484e81174fd50775cb9099691c7d140ff00c0f088847e38dc87da67eb9b),
    ("nutellalicka_AR", 0x0285be2518bf8d65fceaa5f4d8485002f90d3b7ff274b23bb925fd167128e19589),
    ("nutellalicka_SH", 0x03a8b10c1f74af429fc43ab4eb722f6c2a88087f2d71703e7f0e8001207a966fb5),
    ("ocean_AR", 0x03c2bc8c57a001a788851fedc33ce72797ee8fe26eaa3abb1b807727e4867a3105),
    ("pbca26_NA", 0x03d8b25536da157d931b159a72c0eeaedb1bf7bb3eb2d02647fa41b2422a2b064e),
    ("pbca26_SH", 0x039a55787b742c3725323f0bd81c90a484fbdbf276a16317883bb03eedd9d6aa7c),
    ("phit_SH", 0x02a9cef2141fb2af24349c1eea20f5fa8f5dba2835723778d19b23353ddcd877b1),
    ("ptyx_NA", 0x0395640e81359526ecbc140716ddd5c9a1ce2a697fb547ca896e17cad3c65e78db),
    ("ptyx2_NA", 0x0225ff37e49e443065018736fbcad175ab5993b51b99b846e8de0b8b9abbed2ef2),
    ("sheeba_SH", 0x03e6578015b7f0ab78a486070435031fff7bae11256ca6a9f3d358ab03029737cb),
    ("smdmitry_AR", 0x022a2a45979a6631a25e4c96469423de720a2f4c849548957c35a35c91041ee7ac),
    ("smdmitry_EU", 0x02eb3aad81778f8d6f7e5295c44ca224e5c812f5e43fc1e9ce4ebafc23324183c9),
    ("smdmitry_SH", 0x02d01cd6b87cbf5a9795c06968f0d169168c1be0d82cfeb79958b11ae2c30316c1),
    ("strob_SH", 0x025ceac4256cef83ca4b110f837a71d70a5a977ecfdf807335e00bc78b560d451a),
    ("strobnidan_SH", 0x02b967fde3686d45056343e488997d4c53f25cd7ad38548cd12b136010a09295ae),
    ("tokel_NA", 0x02b472713e87fb2560569857051ea0811c65d668a6fe73df165afe152417f774a0),
    ("tonyl_AR", 0x029ad03929ec295e9164e2bfb9f0e0102c280d5e5212503d079d2d99ab492a9106),
    ("tonyl_DEV", 0x02342ec82b31a016b71cd1eb2f482a74f63172e1029ba2fb18f0def3bd4fc0668a),
    ("van_EU", 0x03af7f8c82f20671ca1978116353839d3e501523e379bfb52b1e05d7816bb5812f),
    ("webworker01_EU", 0x0321d523645caffd8e762764ba56f7874a61b9bf534837a2cb6e7da219fab15eef),
    ("webworker01_NA", 0x0287883ddd8da366401893ebcc1ff7e52d2ad3736984120a0ab01603e02c21dc98),
    ("who-biz_NA", 0x02f91a6772fe1a376e2bbe4b190008e3f878d40a8eaf92c65f1a7680b6b42ea47b),
    ("yurii-khi_DEV", 0x03e57c7341d2c8a3be62e1caaa28978d76a8277dea7bb484fdd8c55dc05e4e4e93),
    ("ca333_EU", 0x021d6fbe67d12f492a01306c70ab096f8b8581eb5f958d3f5fe3588ae8c7797f42),
    ("dragonhound_DEV", 0x038e010c33c56b61389409eea5597fe17967398731e23185c84c472a16fc5d34ab)
  ]
]

/-- The season roster at index `i` of the table (`notaries_elected[i]`; rosters
are read through this after `get_kmd_season`/`get_ac_season` succeeds). -/
def kmd_season_pubkeys (i : Nat) : List (String × Nat) :=
  NOTARIES_ELECTED_SOURCE.getD i []

/-- NNData::komodo_get_notary_id_for_height: resolve the season roster for the
height, then `season.iter().position(|t| t.1 == pk)`. -/
def NNData.komodo_get_notary_id_for_height (height pk : Nat) :
    Except NotaryDataError (Option Nat) := do
  let si ← get_kmd_season height
  .ok ((kmd_season_pubkeys si).findIdx? (fun t => t.2 == pk))

/-- NNData::komodo_get_notary_id_for_timestamp: resolve the season roster for
the timestamp, then the key's roster position. -/
def NNData.komodo_get_notary_id_for_timestamp (timestamp pk : Nat) :
    Except NotaryDataError (Option Nat) := do
  let si ← get_ac_season timestamp
  .ok ((kmd_season_pubkeys si).findIdx? (fun t => t.2 == pk))

/-- Free function komodo_get_notary_id_for_height: `lock` is true when
`NNDATA.lock()` succeeds; a poisoned mutex (lock = false) yields
NoNotaryPubkeysInitialised. -/
def komodo_get_notary_id_for_height (lock : Bool) (height pk : Nat) :
    Except NotaryDataError (Option Nat) :=
  if lock then NNData.komodo_get_notary_id_for_height height pk
  else .error .NoNotaryPubkeysInitialised

/-- Free function komodo_get_notary_id_for_timestamp, same lock discipline. -/
def komodo_get_notary_id_for_timestamp (lock : Bool) (timestamp pk : Nat) :
    Except NotaryDataError (Option Nat) :=
  if lock then NNData.komodo_get_notary_id_for_timestamp timestamp pk
  else .error .NoNotaryPubkeysInitialised

/-- A transparent output: value and locking script (transparent::Output). -/
structure Output where
  value : Int
  lock_script : Bytes
deriving DecidableEq

/-- Big-endian byte-string value, used to read a compressed pubkey as a number. -/
def bytesToNat (bs : Bytes) : Nat :=
  bs.foldl (fun a b => a * 256 + b) 0

/-- Modelled from the spec: `parse_p2pk` (komodo_utils.rs is not under src/)
"extracts a single public key only if the locking script is canonical
pay-to-pubkey form": a push of the 33-byte compressed key (0x21) followed by
OP_CHECKSIG (0xac). -/
def parse_p2pk (script : Bytes) : Option Nat :=
  if script.length = 35 ∧ script.head? = some 0x21 ∧ script.getLast? = some 0xac then
    some (bytesToNat ((script.drop 1).take 33))
  else none

/-- komodo_is_notary_node_output: on a healthy lock, parse the script as P2PK
and ask for the key's roster id, `.unwrap()`-ing the season lookup (the unwrap
panic is the `.error` branch); a parse failure falls through to `false`; a
poisoned lock logs and also returns `false`. -/
def komodo_is_notary_node_output (lock : Bool) (height : Nat) (out : Output) :
    Except NotaryDataError Bool :=
  if lock then
    match parse_p2pk out.lock_script with
    | some pk =>
      match NNData.komodo_get_notary_id_for_height height pk with
      | .ok r => .ok r.isSome
      | .error e => .error e
    | none => .ok false
  else .ok false

/-- Modelled from the spec: the NotarizationRecord (BackNotarisationData,
komodo_nota.rs is not under src/) is "a small versioned binary structure with a
height field, a hash field, and an opaque trailing payload"; the typed leading
fields are explicit and the rest is a preserved raw byte tail. -/
structure BackNotarisationData where
  notarised_height : Nat
  notarised_block_hash : Bytes
  opaque_payload : Bytes
deriving DecidableEq

/-- Modelled from the spec: the version tag of the NotarizationRecord binary
layout (the spec fixes its existence, not its value). -/
def NOTA_VERSION_TAG : Nat := 1

/-- Little-endian 4-byte encoding of a u32 height. -/
def toLE4 (n : Nat) : Bytes :=
  [n % 256, n / 256 % 256, n / 65536 % 256, n / 16777216 % 256]

/-- Value of the first four little-endian bytes. -/
def fromLE4 (bs : Bytes) : Nat :=
  bs.getD 0 0 + 256 * bs.getD 1 0 + 65536 * bs.getD 2 0 + 16777216 * bs.getD 3 0

/-- Modelled from the spec: encode(record) is canonical and deterministic over
the layout "version tag, target height, target hash, opaque trailing payload". -/
def BackNotarisationData.zcash_serialize (r : BackNotarisationData) : Bytes :=
  NOTA_VERSION_TAG :: (toLE4 r.notarised_height ++ r.notarised_block_hash ++ r.opaque_payload)

/-- Modelled from the spec: decode(bytes) fails on input that is too short or
carries a bad version tag, else reads the height, the 32-byte hash and keeps
the trailing payload verbatim. -/
def BackNotarisationData.zcash_deserialize (bs : Bytes) : Except Unit BackNotarisationData :=
  match bs with
  | v :: rest =>
    if v = NOTA_VERSION_TAG ∧ 36 ≤ rest.length then
      .ok ⟨fromLE4 (rest.take 4), (rest.drop 4).take 32, rest.drop 36⟩
    else .error ()
  | [] => .error ()

/-- transparent::OutPoint. -/
structure OutPoint where
  hash : Bytes
  index : Nat
deriving DecidableEq

/-- transaction::LockTime (Height or Time variant). -/
inductive LockTime where
  | height (h : Nat)
  | time (t : Nat)
deriving DecidableEq

/-- LockTime::unlocked(). -/
def LockTime.unlocked : LockTime := .height 0

/-- transparent::Input: a previous-output spend or a coinbase input. -/
inductive Input where
  | prevOut (outpoint : OutPoint) (unlock_script : Bytes) (sequence : Nat)
  | coinbase (height : Nat) (data : Bytes) (sequence : Nat)
deriving DecidableEq

/-- The transaction fields the engine touches: its inputs and outputs. -/
structure Transaction where
  inputs : List Input
  outputs : List Output
deriving DecidableEq

/-- transparent::Utxo. -/
structure Utxo where
  output : Output
  height : Nat
  from_coinbase : Bool
  lock_time : LockTime
deriving DecidableEq

/-- transparent::OrderedUtxo. -/
structure OrderedUtxo where
  utxo : Utxo
  tx_index_in_block : Nat
deriving DecidableEq

/-- The block-header fields the engine touches. -/
structure Header where
  previous_block_hash : Bytes
  merkle_root : Bytes
  time : Int
deriving DecidableEq

/-- block::Block. -/
structure Block where
  header : Header
  transactions : List Transaction
deriving DecidableEq

/-- The engine's external collaborators (spec section 6): hashing of blocks and
transactions, merkle-root computation over a transaction list, the two fixed
protocol constants and the two deserialized fixture template blocks. `σ` is the
caller's ChainAccumulator state (value pools plus UTXO set). -/
structure Env (σ : Type) where
  hashBlock : Block → Bytes
  hashTx : Transaction → Bytes
  merkleRoot : List Transaction → Bytes
  GENESIS_PREVIOUS_BLOCK_HASH : Bytes
  GENESIS_COINBASE_DATA : Bytes
  block_cb : Block
  block_nota : Block

/-- Modelled from the spec: fix_generated_transaction (block/arbitrary.rs is not
under src/) is the "externally supplied per-transaction fixup function": given
the transaction, its index in the block, the height, the parent block's
timestamp and the optional known-UTXO hints, it returns either a rewritten
transaction or a rejection, threading the ChainAccumulator through; the network
tag and the spend-policy checker are passed to it unchanged and are absorbed
into the function value. -/
def FixupFn (σ : Type) : Type :=
  Transaction → Nat → Nat → Option Int → σ →
    Option (List (OutPoint × OrderedUtxo)) → Option Transaction × σ

/-- The fatal conditions of one replay call, one per panic site of
komodo_create_partial_chain. -/
inductive EngineError where
  | coinbaseShape
  | missingFundingTx
  | notaCoinbaseInput
  | fundingOutputIndex
  | missingPreviousBlock
deriving DecidableEq

/-- u32::MAX. -/
def u32MAX : Nat := 4294967295

/-- The coinbase fixup of transaction index 0 (komodo_generate.rs lines 82-96):
at height 0 force GENESIS_COINBASE_DATA, at height > 0 append the branch tag to
the template's coinbase payload; rebuild the input as a coinbase input with the
current height and a u32::MAX sequence. A missing input 0 or a non-coinbase
input 0 at height > 0 is the `unreachable!` panic. -/
def komodo_fix_coinbase {σ : Type} (E : Env σ) (branch_id : Bytes) (height : Nat)
    (tx : Transaction) : Except EngineError Transaction :=
  match tx.inputs.head? with
  | none => .error .coinbaseShape
  | some input0 =>
    match height, input0 with
    | 0, _ => .ok { tx with inputs := [.coinbase 0 E.GENESIS_COINBASE_DATA u32MAX] }
    | n + 1, .coinbase _ data _ =>
      .ok { tx with inputs := [.coinbase (n + 1) (data ++ branch_id) u32MAX] }
    | _ + 1, _ => .error .coinbaseShape

/-- The known-UTXO synthesis of the notarization fixup (lines 119-133): one hint
per input of the notarization transaction, as if the input spent the matching
output of the block's funding transaction tx_1: a coinbase input is the
`unreachable!` panic, an outpoint index with no matching tx_1 output is the
out-of-bounds indexing panic. -/
def komodo_nota_known_utxos {σ : Type} (E : Env σ) (height : Nat) (tx_1 : Transaction) :
    List Input → Except EngineError (List (OutPoint × OrderedUtxo))
  | [] => .ok []
  | input :: rest =>
    match input with
    | .prevOut outpoint _ _ =>
      match tx_1.outputs[outpoint.index]? with
      | some o =>
        match komodo_nota_known_utxos E height tx_1 rest with
        | .error e => .error e
        | .ok hints =>
          .ok ((⟨E.hashTx tx_1, outpoint.index⟩,
                ⟨⟨⟨o.value, o.lock_script⟩, height, false, LockTime.unlocked⟩, 1⟩) :: hints)
      | none => .error .fundingOutputIndex
    | .coinbase _ _ _ => .error .notaCoinbaseInput

/-- The notarization fixup of a transaction at index >= 2 (lines 103-137): if
the last output's script decodes as a BackNotarisationData and the block two
positions back exists, patch the record's target height to height - 2 and its
target hash to that block's hash, re-serialize it into the last output, and
synthesize the known-UTXO hints from the stored funding transaction (whose
absence is the `expect` panic); otherwise the transaction is untouched. -/
def komodo_fix_nota {σ : Type} (E : Env σ) (height : Nat) (previous_block_2 : Option Block)
    (tx_1_fixed : Option Transaction) (tx : Transaction) :
    Except EngineError (Transaction × Option (List (OutPoint × OrderedUtxo))) :=
  match tx.outputs.getLast? with
  | none => .ok (tx, none)
  | some last =>
    match BackNotarisationData.zcash_deserialize last.lock_script with
    | .error _ => .ok (tx, none)
    | .ok nota =>
      match previous_block_2 with
      | none => .ok (tx, none)
      | some previous_block_off_2 =>
        let nota' := { nota with notarised_height := height - 2,
                                 notarised_block_hash := E.hashBlock previous_block_off_2 }
        let new_last := { last with lock_script := nota'.zcash_serialize }
        let tx' := { tx with outputs := tx.outputs.dropLast ++ [new_last] }
        match tx_1_fixed with
        | none => .error .missingFundingTx
        | some tx_1 =>
          match komodo_nota_known_utxos E height tx_1 tx'.inputs with
          | .error e => .error e
          | .ok utxo_map => .ok (tx', some utxo_map)

/-- The per-transaction walk of one block (lines 79-159): local coinbase and
notarization patches, then the external fixup; an accepted transaction is kept
(and cached as the funding transaction when at index 1), a rejected one is
dropped. -/
def komodo_process_txs {σ : Type} (E : Env σ) (fixup : FixupFn σ) (branch_id : Bytes)
    (height : Nat) (previous_block previous_block_2 : Option Block) :
    List Transaction → Nat → Option Transaction → List Transaction → σ →
      Except EngineError (List Transaction × σ)
  | [], _, _, acc, st => .ok (acc, st)
  | t :: ts, idx, tx_1_fixed, acc, st =>
    match (if idx = 0 then komodo_fix_coinbase E branch_id height t else .ok t) with
    | .error e => .error e
    | .ok txA =>
      match (if 2 ≤ idx then komodo_fix_nota E height previous_block_2 tx_1_fixed txA
             else .ok (txA, none)) with
      | .error e => .error e
      | .ok pr =>
        match fixup pr.1 idx height (previous_block.map (fun p => p.header.time)) st pr.2 with
        | (some fixed, st') =>
          komodo_process_txs E fixup branch_id height previous_block previous_block_2 ts
            (idx + 1) (if idx = 1 then some fixed else tx_1_fixed) (acc ++ [fixed]) st'
        | (none, st') =>
          komodo_process_txs E fixup branch_id height previous_block previous_block_2 ts
            (idx + 1) tx_1_fixed acc st'

/-- One block of the replay loop (lines 58-180): process the transactions,
recompute the merkle root over the kept ones, then set the previous-block hash
(genesis sentinel at height 0, hash of the predecessor otherwise - its absence
at height > 0 is the `assert!` panic) and the block time (predecessor time plus
60 seconds). -/
def komodo_process_block {σ : Type} (E : Env σ) (fixup : FixupFn σ) (branch_id : Bytes)
    (height : Nat) (previous_block previous_block_2 : Option Block) (b : Block) (st : σ) :
    Except EngineError (Block × σ) :=
  match komodo_process_txs E fixup branch_id height previous_block previous_block_2
          b.transactions 0 none [] st with
  | .error e => .error e
  | .ok r =>
    if 0 < height then
      match previous_block with
      | some p =>
        .ok ({ header := { b.header with merkle_root := E.merkleRoot r.1,
                                         previous_block_hash := E.hashBlock p,
                                         time := p.header.time + 60 },
               transactions := r.1 }, r.2)
      | none => .error .missingPreviousBlock
    else
      .ok ({ header := { b.header with merkle_root := E.merkleRoot r.1,
                                       previous_block_hash := E.GENESIS_PREVIOUS_BLOCK_HASH },
             transactions := r.1 }, r.2)

/-- The replay loop over `vec` from index start_height (line 58): `acc` holds
vec[0..i] (prefix entries still raw, processed entries rebuilt); the immediately
preceding entry and the entry two back are read from `acc`. -/
def komodo_chain_loop {σ : Type} (E : Env σ) (fixup : FixupFn σ) (branch_id : Bytes) :
    List (Nat × Block) → List (Nat × Block) → σ →
      Except EngineError (List (Nat × Block) × σ)
  | acc, [], st => .ok (acc, st)
  | acc, (ht, b) :: rest, st =>
    match komodo_process_block E fixup branch_id ht
            ((acc.getLast?).map (fun p => p.2))
            ((acc.dropLast.getLast?).map (fun p => p.2)) b st with
    | .error e => .error e
    | .ok pr => komodo_chain_loop E fixup branch_id (acc ++ [(ht, pr.1)]) rest pr.2

/-- komodo_create_partial_chain: enumerate the prefix blocks, append
`block_count` copies of the selected template at heights start_height..,
run the loop from index start_height, and return only the new blocks. -/
def komodo_create_partial_chain {σ : Type} (E : Env σ) (branch_id : Bytes)
    (start_blocks : List Block) (st : σ) (start_height : Nat) (block_count : Nat)
    (block_with_nota : Bool) (fixup : FixupFn σ) : Except EngineError (List Block) :=
  let template := if block_with_nota then E.block_nota else E.block_cb
  let vec := start_blocks.enum ++
    (List.range block_count).map (fun k => (start_height + k, template))
  match komodo_chain_loop E fixup branch_id (vec.take start_height)
          (vec.drop start_height) st with
  | .error e => .error e
  | .ok full => .ok ((full.1.drop start_height).map (fun p => p.2))

deriving instance DecidableEq for Except

/-- get_kmd_season unfolded over the concrete season bounds. -/
theorem get_kmd_season_unfold (h : Nat) : get_kmd_season h =
    if h ≤ 814000 then Except.ok 0
    else if h ≤ 1444000 ∧ 814000 < h then Except.ok 1
    else if h ≤ 1670000 ∧ 1444000 < h then Except.ok 2
    else if h ≤ 1922000 ∧ 1670000 < h then Except.ok 3
    else if h ≤ 2437300 ∧ 1922000 < h then Except.ok 4
    else if h ≤ 2963330 ∧ 2437300 < h then Except.ok 5
    else if h ≤ 7113400 ∧ 2963330 < h then Except.ok 6
    else Except.error NotaryDataError.NoSeasonForHeight := by
  simp only [get_kmd_season, KMD_SEASON_HEIGHTS, season_search]

/-- Every height up to the last bound resolves to a season index below 7. -/
theorem get_kmd_season_lt (h : Nat) (hle : h ≤ 7113400) :
    ∃ si, si < 7 ∧ get_kmd_season h = .ok si := by
  rw [get_kmd_season_unfold]
  split_ifs <;> first | exact ⟨_, by norm_num, rfl⟩ | omega

set_option maxHeartbeats 2000000 in
/-- Seasons only change at the configured boundary heights. -/
theorem get_kmd_season_succ_eq (h : Nat) (h1 : h + 1 ≤ 7113400)
    (h2 : h ∉ KMD_SEASON_HEIGHTS) : get_kmd_season h = get_kmd_season (h + 1) := by
  simp only [KMD_SEASON_HEIGHTS, List.mem_cons, List.not_mem_nil] at h2
  push_neg at h2
  rw [get_kmd_season_unfold, get_kmd_season_unfold]
  split_ifs <;> first | rfl | omega

set_option maxHeartbeats 2000000 in
/-- C2: get_kmd_season returns season 0 exactly for heights at or below 814000,
season i > 0 exactly on the open-closed interval (bound[i-1], bound[i]], and the
NoSeasonForHeight error exactly above the last bound 7113400; every height up to
the last bound resolves to exactly one season. -/
theorem get_kmd_season_partition (h : Nat) :
    (get_kmd_season h = .ok 0 ↔ h ≤ 814000) ∧
    (∀ i, 0 < i →
      (get_kmd_season h = .ok i ↔
        i < NUM_KMD_SEASONS ∧ KMD_SEASON_HEIGHTS.getD (i - 1) 0 < h ∧
          h ≤ KMD_SEASON_HEIGHTS.getD i 0)) ∧
    (get_kmd_season h = .error .NoSeasonForHeight ↔ 7113400 < h) ∧
    (h ≤ 7113400 → ∃! i, get_kmd_season h = .ok i) := by
  have e := get_kmd_season_unfold h
  have hgd : ∀ j : Nat, 7 ≤ j → KMD_SEASON_HEIGHTS.getD j 0 = 0 := by
    intro j hj
    apply List.getD_eq_default
    simpa [KMD_SEASON_HEIGHTS] using hj
  refine ⟨?_, ?_, ?_, ?_⟩
  · rw [e]; split_ifs <;> simp <;> omega
  · intro i hi
    constructor
    · intro hok
      rw [e] at hok
      split_ifs at hok <;> injection hok with hv <;> subst hv <;>
        refine ⟨by norm_num [NUM_KMD_SEASONS], ?_, ?_⟩ <;>
        norm_num [KMD_SEASON_HEIGHTS] <;> omega
    · rintro ⟨h7, hlo, hup⟩
      rw [e]
      rcases i with _ | _ | _ | _ | _ | _ | _ | j
      · omega
      · norm_num [KMD_SEASON_HEIGHTS] at hlo hup; split_ifs <;> first | rfl | omega
      · norm_num [KMD_SEASON_HEIGHTS] at hlo hup; split_ifs <;> first | rfl | omega
      · norm_num [KMD_SEASON_HEIGHTS] at hlo hup; split_ifs <;> first | rfl | omega
      · norm_num [KMD_SEASON_HEIGHTS] at hlo hup; split_ifs <;> first | rfl | omega
      · norm_num [KMD_SEASON_HEIGHTS] at hlo hup; split_ifs <;> first | rfl | omega
      · norm_num [KMD_SEASON_HEIGHTS] at hlo hup; split_ifs <;> first | rfl | omega
      · simp only [NUM_KMD_SEASONS] at h7; omega
  · rw [e]; split_ifs <;> simp <;> omega
  · intro hle
    rw [e]
    split_ifs <;> first
      | exact ⟨_, rfl, fun y hy => by injection hy with hv; omega⟩
      | omega

/-- findIdx? over a list whose keys are distinct returns exactly the position
of the matching entry. -/
theorem findIdx?_key_eq_some_iff {l : List (String × Nat)}
    (hn : (l.map (fun t => t.2)).Nodup) (pk : Nat) (i : Nat) :
    l.findIdx? (fun t => t.2 == pk) = some i ↔ ∃ e, l[i]? = some e ∧ e.2 = pk := by
  rw [List.findIdx?_eq_some_iff_getElem]
  constructor
  · rintro ⟨hl, hp, -⟩
    exact ⟨l.get ⟨i, hl⟩, by simp [List.getElem?_eq_getElem hl], by simpa using hp⟩
  · rintro ⟨e, he, hpk⟩
    obtain ⟨hi, hei⟩ := List.getElem?_eq_some.mp he
    refine ⟨hi, by simp only [hei]; simpa using hpk, ?_⟩
    intro j hj
    have hji : j < l.length := hj.trans hi
    intro hpj
    have h2 : l[j].2 = pk := by simpa using hpj
    have hkey : (l.map (fun t => t.2)).get ⟨j, by simpa using hji⟩ =
        (l.map (fun t => t.2)).get ⟨i, by simpa using hi⟩ := by
      simp [h2, hei, hpk]
    have hfin := (List.Nodup.get_inj_iff hn).mp hkey
    have : j = i := congrArg Fin.val hfin
    omega

/-- Every season roster of the table has pairwise-distinct keys and 64 entries. -/
theorem kmd_season_pubkeys_facts :
    ∀ si : Nat, si < 7 →
      ((kmd_season_pubkeys si).map (fun t => t.2)).Nodup ∧
      (kmd_season_pubkeys si).length = 64 := by decide

set_option maxHeartbeats 1000000 in
/-- C3: for every height up to the last configured bound,
komodo_get_notary_id_for_height returns Ok(Some i) exactly when the key is entry
i of the 64-entry roster of the season covering the height, Ok(None) exactly
when the key is absent from that roster, and the answer changes only at season
boundary heights. -/
theorem komodo_get_notary_id_for_height_spec (height pk : Nat) (hh : height ≤ 7113400) :
    ∃ si, get_kmd_season height = .ok si ∧
      (kmd_season_pubkeys si).length = NUM_KMD_NOTARIES ∧
      (∀ i, komodo_get_notary_id_for_height true height pk = .ok (some i) ↔
        ∃ e, (kmd_season_pubkeys si)[i]? = some e ∧ e.2 = pk) ∧
      (komodo_get_notary_id_for_height true height pk = .ok none ↔
        ∀ e ∈ kmd_season_pubkeys si, e.2 ≠ pk) ∧
      (∀ pk' : Nat, height + 1 ≤ 7113400 → height ∉ KMD_SEASON_HEIGHTS →
        komodo_get_notary_id_for_height true height pk' =
          komodo_get_notary_id_for_height true (height + 1) pk') := by
  obtain ⟨si, hsi7, hsi⟩ := get_kmd_season_lt height hh
  obtain ⟨hnodup, hlen⟩ := kmd_season_pubkeys_facts si hsi7
  have hrun : ∀ q : Nat, komodo_get_notary_id_for_height true height q =
      .ok ((kmd_season_pubkeys si).findIdx? (fun t => t.2 == q)) := by
    intro q
    simp only [komodo_get_notary_id_for_height, if_true,
      NNData.komodo_get_notary_id_for_height, hsi]
    rfl
  refine ⟨si, hsi, by simpa [NUM_KMD_NOTARIES] using hlen, ?_, ?_, ?_⟩
  · intro i
    rw [hrun pk]
    simp only [Except.ok.injEq]
    exact findIdx?_key_eq_some_iff hnodup pk i
  · rw [hrun pk]
    simp only [Except.ok.injEq, List.findIdx?_eq_none_iff]
    constructor
    · intro hx e he
      simpa using hx e he
    · intro hx e he
      simpa using hx e he
  · intro pk' h1 h2
    have hseq := get_kmd_season_succ_eq height h1 h2
    simp [komodo_get_notary_id_for_height, NNData.komodo_get_notary_id_for_height, ← hseq]

/-- Reading back the four little-endian bytes of a u32 value recovers it. -/
theorem fromLE4_toLE4 (n : Nat) (h : n < 4294967296) : fromLE4 (toLE4 n) = n := by
  simp only [toLE4, fromLE4, List.getD_cons_zero, List.getD_cons_succ]
  omega

theorem nota_roundtrip_aux (r : BackNotarisationData)
    (h1 : r.notarised_height < 4294967296) (h2 : r.notarised_block_hash.length = 32) :
    BackNotarisationData.zcash_deserialize (BackNotarisationData.zcash_serialize r) =
      .ok r := by
  obtain ⟨n, hs, tl⟩ := r
  simp only at h1 h2
  have e1 : (toLE4 n ++ hs ++ tl).take 4 = toLE4 n := by
    rw [List.append_assoc]
    exact List.take_left' rfl
  have e2 : (toLE4 n ++ hs ++ tl).drop 4 = hs ++ tl := by
    rw [List.append_assoc]
    exact List.drop_left' rfl
  have e3 : (hs ++ tl).take 32 = hs := List.take_left' h2
  have e4 : (toLE4 n ++ hs ++ tl).drop 36 = tl := by
    have h36 : (toLE4 n ++ hs).length = 36 := by simp [toLE4, h2]
    exact List.drop_left' h36
  simp only [BackNotarisationData.zcash_serialize, BackNotarisationData.zcash_deserialize]
  rw [if_pos]
  · rw [e1, e2, e3, e4, fromLE4_toLE4 n h1]
  · refine ⟨by trivial, ?_⟩
    simp [toLE4, h2]


/-- C5: decode(encode(r)) == r - the NotarizationRecord binary layout (version
tag, target height, target hash, opaque trailing payload) round-trips bit-exactly
through the codec for every valid record. -/
theorem back_nota_roundtrip (r : BackNotarisationData)
    (h1 : r.notarised_height < 4294967296) (h2 : r.notarised_block_hash.length = 32) :
    BackNotarisationData.zcash_deserialize (BackNotarisationData.zcash_serialize r) =
      .ok r :=
  nota_roundtrip_aux r h1 h2

theorem back_nota_roundtrip_witness :
    (5 : Nat) < 4294967296 ∧ (List.replicate 32 7).length = 32 ∧
    BackNotarisationData.zcash_deserialize
      (BackNotarisationData.zcash_serialize ⟨5, List.replicate 32 7, [9, 8]⟩) =
      .ok ⟨5, List.replicate 32 7, [9, 8]⟩ :=
  ⟨by norm_num, by simp,
    back_nota_roundtrip ⟨5, List.replicate 32 7, [9, 8]⟩ (by norm_num) (by simp)⟩

set_option maxHeartbeats 1000000 in
/-- C1: when a transaction at index >= 2 has a last output that decodes as a
NotarizationRecord and the block two positions back exists, the rebuilt record
carries target height = current height - 2 and target hash = the hash of that
block (with the trailing payload preserved); with no such prior block the
template transaction is left untouched. -/
theorem komodo_fix_nota_patches_target {σ : Type} (E : Env σ) (height : Nat) (pb2 : Block)
    (tx_1_fixed : Option Transaction) (tx : Transaction) (last : Output)
    (nota : BackNotarisationData)
    (hlast : tx.outputs.getLast? = some last)
    (hdec : BackNotarisationData.zcash_deserialize last.lock_script = .ok nota)
    (hv1 : height - 2 < 4294967296) (hv2 : (E.hashBlock pb2).length = 32) :
    (∀ tx' known, komodo_fix_nota E height (some pb2) tx_1_fixed tx = .ok (tx', known) →
      ∃ last', tx'.outputs.getLast? = some last' ∧
        BackNotarisationData.zcash_deserialize last'.lock_script =
          .ok ⟨height - 2, E.hashBlock pb2, nota.opaque_payload⟩) ∧
    komodo_fix_nota E height none tx_1_fixed tx = .ok (tx, none) := by
  constructor
  · intro tx' known hok
    simp only [komodo_fix_nota, hlast, hdec] at hok
    cases htx1 : tx_1_fixed with
    | none =>
      simp only [htx1] at hok
      exact Except.noConfusion hok
    | some tx_1 =>
      simp only [htx1] at hok
      cases hk : komodo_nota_known_utxos E height tx_1 tx.inputs with
      | error e =>
        simp only [hk] at hok
        exact Except.noConfusion hok
      | ok u =>
        simp only [hk] at hok
        injection hok with hpair
        injection hpair with h1 h2
        subst h1
        refine ⟨_, List.getLast?_concat _, ?_⟩
        exact nota_roundtrip_aux _ hv1 hv2
  · simp only [komodo_fix_nota, hlast, hdec]

/-- The known-UTXO synthesis is total exactly on input lists where every input
spends a previous output whose index has a matching funding-transaction output,
and then produces one hint per input. -/
theorem komodo_nota_known_utxos_spec {σ : Type} (E : Env σ) (height : Nat)
    (tx_1 : Transaction) :
    ∀ inputs : List Input,
      ((∀ inp ∈ inputs, ∃ (op : OutPoint) (u : Bytes) (s : Nat), inp = Input.prevOut op u s ∧
          op.index < tx_1.outputs.length) →
        ∃ hints, komodo_nota_known_utxos E height tx_1 inputs = .ok hints ∧
          hints.length = inputs.length ∧
          (∀ (k : Nat) (op : OutPoint) (u : Bytes) (s : Nat), inputs[k]? = some (Input.prevOut op u s) →
            ∃ o, tx_1.outputs[op.index]? = some o ∧
              hints[k]? = some ((⟨E.hashTx tx_1, op.index⟩ : OutPoint),
                (⟨⟨⟨o.value, o.lock_script⟩, height, false, LockTime.unlocked⟩, 1⟩ :
                  OrderedUtxo)))) ∧
      ((¬ ∀ inp ∈ inputs, ∃ (op : OutPoint) (u : Bytes) (s : Nat), inp = Input.prevOut op u s ∧
          op.index < tx_1.outputs.length) →
        ∃ e, komodo_nota_known_utxos E height tx_1 inputs = .error e) := by
  intro inputs
  induction inputs with
  | nil =>
    constructor
    · intro _
      refine ⟨[], rfl, rfl, ?_⟩
      intro k op u s hx
      simp only [List.getElem?_nil] at hx
      exact Option.noConfusion hx
    · intro hneg
      exact absurd (fun inp hinp => absurd hinp (List.not_mem_nil inp)) hneg
  | cons a rest ih =>
    cases a with
    | coinbase ch cd cs =>
      constructor
      · intro hall
        obtain ⟨op, u, s, heq, -⟩ := hall _ (List.mem_cons_self _ _)
        exact Input.noConfusion heq
      · intro _
        exact ⟨.notaCoinbaseInput, rfl⟩
    | prevOut op u s =>
      cases hidx : tx_1.outputs[op.index]? with
      | none =>
        constructor
        · intro hall
          obtain ⟨op', u', s', heq, hlt⟩ := hall _ (List.mem_cons_self _ _)
          injection heq with e1 e2 e3
          subst e1
          rw [List.getElem?_eq_getElem hlt] at hidx
          exact Option.noConfusion hidx
        · intro _
          refine ⟨.fundingOutputIndex, ?_⟩
          simp only [komodo_nota_known_utxos, hidx]
      | some o =>
        have hlt : op.index < tx_1.outputs.length := by
          rcases List.getElem?_eq_some.mp hidx with ⟨hl, -⟩
          exact hl
        constructor
        · intro hall
          have htail := fun inp hinp => hall inp (List.mem_cons_of_mem _ hinp)
          obtain ⟨hints, hok, hlen, hElem⟩ := ih.1 htail
          refine ⟨((⟨E.hashTx tx_1, op.index⟩ : OutPoint),
            (⟨⟨⟨o.value, o.lock_script⟩, height, false, LockTime.unlocked⟩, 1⟩ :
              OrderedUtxo)) :: hints,
            ?_, by simp [hlen], ?_⟩
          · simp only [komodo_nota_known_utxos, hidx, hok]
          · intro k op' u' s' hk
            cases k with
            | zero =>
              simp only [List.getElem?_cons_zero, Option.some.injEq] at hk
              injection hk with e1 e2 e3
              subst e1
              exact ⟨o, hidx, by simp⟩
            | succ k =>
              simp only [List.getElem?_cons_succ] at hk
              obtain ⟨o', ho', hh⟩ := hElem k op' u' s' hk
              exact ⟨o', ho', by simpa using hh⟩
        · intro hneg
          have htail : ¬ ∀ inp ∈ rest, ∃ op' u' s', inp = .prevOut op' u' s' ∧
              op'.index < tx_1.outputs.length := by
            intro hrest
            apply hneg
            intro inp hinp
            rcases List.mem_cons.mp hinp with rfl | hmem
            · exact ⟨op, u, s, rfl, hlt⟩
            · exact hrest inp hmem
          obtain ⟨e, herr⟩ := ih.2 htail
          refine ⟨e, ?_⟩
          simp only [komodo_nota_known_utxos, hidx, herr]

set_option maxHeartbeats 1000000 in
/-- C10: the known-UTXO synthesis of a notarization patch succeeds exactly when
the funding transaction at index 1 was previously accepted, every input of the
notarization transaction is a previous-output input and each outpoint index has
a matching funding-transaction output; it then yields one hint per input copying
value and lock script from the funding transaction's output at the same index,
recorded at the current height, not-from-coinbase and unlocked; any failing part
of the precondition is a fatal error. -/
theorem komodo_fix_nota_known_utxos_total {σ : Type} (E : Env σ) (height : Nat)
    (pb2 : Block) (tx_1_fixed : Option Transaction) (tx : Transaction) (last : Output)
    (nota : BackNotarisationData)
    (hlast : tx.outputs.getLast? = some last)
    (hdec : BackNotarisationData.zcash_deserialize last.lock_script = .ok nota) :
    (∀ tx_1, tx_1_fixed = some tx_1 →
      (∀ inp ∈ tx.inputs, ∃ (op : OutPoint) (u : Bytes) (s : Nat),
          inp = Input.prevOut op u s ∧ op.index < tx_1.outputs.length) →
      ∃ tx' hints,
        komodo_fix_nota E height (some pb2) tx_1_fixed tx = .ok (tx', some hints) ∧
        tx'.inputs = tx.inputs ∧
        hints.length = tx.inputs.length ∧
        (∀ (k : Nat) (op : OutPoint) (u : Bytes) (s : Nat),
          tx.inputs[k]? = some (Input.prevOut op u s) →
          ∃ o, tx_1.outputs[op.index]? = some o ∧
            hints[k]? = some ((⟨E.hashTx tx_1, op.index⟩ : OutPoint),
              (⟨⟨⟨o.value, o.lock_script⟩, height, false, LockTime.unlocked⟩, 1⟩ :
                OrderedUtxo)))) ∧
    ((tx_1_fixed = none ∨ ∃ tx_1, tx_1_fixed = some tx_1 ∧
        ¬ ∀ inp ∈ tx.inputs, ∃ (op : OutPoint) (u : Bytes) (s : Nat),
          inp = Input.prevOut op u s ∧ op.index < tx_1.outputs.length) →
      ∃ e, komodo_fix_nota E height (some pb2) tx_1_fixed tx = .error e) := by
  constructor
  · intro tx_1 htx1 hall
    subst htx1
    obtain ⟨hints, hok, hlen, hElem⟩ := (komodo_nota_known_utxos_spec E height tx_1
      tx.inputs).1 hall
    refine ⟨Transaction.mk tx.inputs (tx.outputs.dropLast ++
        [Output.mk last.value (BackNotarisationData.zcash_serialize
          (BackNotarisationData.mk (height - 2) (E.hashBlock pb2)
            nota.opaque_payload))]),
      hints, ?_, rfl, hlen, hElem⟩
    simp only [komodo_fix_nota, hlast, hdec, hok]
  · intro hbad
    rcases hbad with rfl | ⟨tx_1, htx1, hneg⟩
    · refine ⟨.missingFundingTx, ?_⟩
      simp only [komodo_fix_nota, hlast, hdec]
    · subst htx1
      obtain ⟨e, herr⟩ := (komodo_nota_known_utxos_spec E height tx_1 tx.inputs).2 hneg
      refine ⟨e, ?_⟩
      simp only [komodo_fix_nota, hlast, hdec, herr]

/-- A successful replay loop run extends its accumulator. -/
theorem komodo_chain_loop_extends {σ : Type} (E : Env σ) (fixup : FixupFn σ)
    (branch_id : Bytes) :
    ∀ (rest acc : List (Nat × Block)) (st : σ) (out : List (Nat × Block) × σ),
      komodo_chain_loop E fixup branch_id acc rest st = .ok out →
      ∃ t, out.1 = acc ++ t := by
  intro rest
  induction rest with
  | nil =>
    intro acc st out h
    simp only [komodo_chain_loop] at h
    injection h with h1
    exact ⟨[], by rw [← h1]; simp⟩
  | cons hb rest ih =>
    intro acc st out h
    obtain ⟨ht, b⟩ := hb
    simp only [komodo_chain_loop] at h
    cases hpb : komodo_process_block E fixup branch_id ht
        ((acc.getLast?).map (fun p => p.2))
        ((acc.dropLast.getLast?).map (fun p => p.2)) b st with
    | error e =>
      rw [hpb] at h
      exact Except.noConfusion h
    | ok pr =>
      rw [hpb] at h
      obtain ⟨t, ht'⟩ := ih (acc ++ [(ht, pr.1)]) pr.2 out h
      exact ⟨(ht, pr.1) :: t, by rw [ht']; simp⟩

/-- What one processed block's previous-block hash is, as a function of its
height and the predecessor argument. -/
theorem komodo_process_block_prev_hash {σ : Type} (E : Env σ) (fixup : FixupFn σ)
    (branch_id : Bytes) (height : Nat) (prev prev2 : Option Block) (b : Block) (st : σ)
    (pr : Block × σ)
    (h : komodo_process_block E fixup branch_id height prev prev2 b st = .ok pr) :
    (height = 0 → pr.1.header.previous_block_hash = E.GENESIS_PREVIOUS_BLOCK_HASH) ∧
    (0 < height → ∃ p, prev = some p ∧
      pr.1.header.previous_block_hash = E.hashBlock p) := by
  simp only [komodo_process_block] at h
  cases hr : komodo_process_txs E fixup branch_id height prev prev2
      b.transactions 0 none [] st with
  | error e =>
    simp only [hr] at h
    exact Except.noConfusion h
  | ok r =>
    simp only [hr] at h
    rcases Nat.eq_zero_or_pos height with hz | hpos
    · subst hz
      rw [if_neg (by omega : ¬ 0 < 0)] at h
      injection h with h1
      constructor
      · intro _
        rw [← h1]
      · intro hx
        omega
    · rw [if_pos hpos] at h
      cases hp : prev with
      | none =>
        simp only [hp] at h
        exact Except.noConfusion h
      | some p =>
        simp only [hp] at h
        injection h with h1
        constructor
        · intro hz
          omega
        · intro _
          exact ⟨p, rfl, by rw [← h1]⟩

/-- A block at positive height with no predecessor is a fatal condition. -/
theorem komodo_process_block_no_prev {σ : Type} (E : Env σ) (fixup : FixupFn σ)
    (branch_id : Bytes) (height : Nat) (prev2 : Option Block) (b : Block) (st : σ)
    (hpos : 0 < height) :
    ∃ e, komodo_process_block E fixup branch_id height none prev2 b st = .error e := by
  simp only [komodo_process_block]
  cases hr : komodo_process_txs E fixup branch_id height none prev2
      b.transactions 0 none [] st with
  | error e => exact ⟨e, rfl⟩
  | ok r =>
    exact ⟨.missingPreviousBlock, by simp [hpos]⟩

set_option maxHeartbeats 1000000 in
/-- Hash linkage invariant of the replay loop: every entry at or past the
starting index of a successful run links to its predecessor in the full
sequence, and an entry at height 0 carries the genesis sentinel. -/
theorem komodo_chain_loop_linkage_aux {σ : Type} (E : Env σ) (fixup : FixupFn σ)
    (branch_id : Bytes) :
    ∀ (rest acc : List (Nat × Block)) (st : σ) (out : List (Nat × Block) × σ),
      komodo_chain_loop E fixup branch_id acc rest st = .ok out →
      ∀ (i : Nat) (hb : Nat × Block), acc.length ≤ i → out.1[i]? = some hb →
        (hb.1 = 0 → hb.2.header.previous_block_hash = E.GENESIS_PREVIOUS_BLOCK_HASH) ∧
        (0 < hb.1 → ∃ pb, out.1[i - 1]? = some pb ∧
          hb.2.header.previous_block_hash = E.hashBlock pb.2) := by
  intro rest
  induction rest with
  | nil =>
    intro acc st out h i hb hi hget
    simp only [komodo_chain_loop] at h
    injection h with h1
    rw [← h1] at hget
    rw [List.getElem?_eq_none hi] at hget
    exact Option.noConfusion hget
  | cons hd rest ih =>
    intro acc st out h i hb hi hget
    obtain ⟨ht, b⟩ := hd
    simp only [komodo_chain_loop] at h
    cases hpb : komodo_process_block E fixup branch_id ht
        ((acc.getLast?).map (fun p => p.2))
        ((acc.dropLast.getLast?).map (fun p => p.2)) b st with
    | error e =>
      rw [hpb] at h
      exact Except.noConfusion h
    | ok pr =>
      simp only [hpb] at h
      have hlen1 : (acc ++ [(ht, pr.1)]).length = acc.length + 1 := by
        simp only [List.length_append, List.length_cons, List.length_nil]
      rcases Nat.lt_or_ge i (acc.length + 1) with hilt | hige
      · have hieq : i = acc.length := by omega
        subst hieq
        obtain ⟨t, hout⟩ := komodo_chain_loop_extends E fixup branch_id rest
          (acc ++ [(ht, pr.1)]) pr.2 out h
        have hval : out.1[acc.length]? = some (ht, pr.1) := by
          rw [hout]
          rw [List.getElem?_append_left (by omega)]
          exact List.getElem?_concat_length acc (ht, pr.1)
        rw [hval] at hget
        injection hget with hget1
        subst hget1
        obtain ⟨hz, hp⟩ := komodo_process_block_prev_hash E fixup branch_id ht
          ((acc.getLast?).map (fun p => p.2))
          ((acc.dropLast.getLast?).map (fun p => p.2)) b st pr hpb
        refine ⟨hz, ?_⟩
        intro hpos
        obtain ⟨p, hpeq, hhash⟩ := hp hpos
        cases hal : acc.getLast? with
        | none =>
          rw [hal] at hpeq
          exact Option.noConfusion hpeq
        | some pa =>
          rw [hal] at hpeq
          simp only [Option.map_some'] at hpeq
          injection hpeq with hpeq1
          have hanez : acc ≠ [] := by
            intro hacc
            rw [hacc] at hal
            exact Option.noConfusion hal
          have hlenpos : 0 < acc.length := List.length_pos.mpr hanez
          refine ⟨pa, ?_, by rw [hhash, ← hpeq1]⟩
          rw [hout]
          rw [List.getElem?_append_left (by omega)]
          rw [List.getElem?_append_left (by omega)]
          rw [← List.getLast?_eq_getElem? acc]
          exact hal
      · exact ih (acc ++ [(ht, pr.1)]) pr.2 out h i hb (by omega) hget

/-- C4: in a successful replay run every processed entry at height 0 carries the
genesis sentinel as previous-block hash, every processed entry at height > 0
carries the hash of the immediately preceding entry of the combined prefix+new
sequence, and a missing predecessor at height > 0 (empty accumulator) is fatal. -/
theorem komodo_chain_linkage {σ : Type} (E : Env σ) (fixup : FixupFn σ)
    (branch_id : Bytes) :
    (∀ (rest acc : List (Nat × Block)) (st : σ) (out : List (Nat × Block) × σ),
      komodo_chain_loop E fixup branch_id acc rest st = .ok out →
      ∀ (i : Nat) (hb : Nat × Block), acc.length ≤ i → out.1[i]? = some hb →
        (hb.1 = 0 → hb.2.header.previous_block_hash = E.GENESIS_PREVIOUS_BLOCK_HASH) ∧
        (0 < hb.1 → ∃ pb, out.1[i - 1]? = some pb ∧
          hb.2.header.previous_block_hash = E.hashBlock pb.2)) ∧
    (∀ (ht : Nat) (b : Block) (rest : List (Nat × Block)) (st : σ), 0 < ht →
      ∃ e, komodo_chain_loop E fixup branch_id [] ((ht, b) :: rest) st = .error e) := by
  constructor
  · exact komodo_chain_loop_linkage_aux E fixup branch_id
  · intro ht b rest st hpos
    obtain ⟨e, he⟩ := komodo_process_block_no_prev E fixup branch_id ht none b st hpos
    refine ⟨e, ?_⟩
    simp only [komodo_chain_loop, List.getLast?_nil, List.dropLast_nil, Option.map_none']
    rw [he]

def acceptAllFixup : FixupFn Unit := fun tx _ _ _ st _ => (some tx, st)

def rejectIdx3Fixup : FixupFn Unit := fun tx idx _ _ st _ =>
  (if idx = 3 then none else some tx, st)

def rejectIdx1Fixup : FixupFn Unit := fun tx idx _ _ st _ =>
  (if idx = 1 then none else some tx, st)

def notaScript : Bytes := BackNotarisationData.zcash_serialize ⟨0, List.replicate 32 1, []⟩

def cbTx : Transaction := ⟨[Input.coinbase 0 [3] 7], [Output.mk 5 [9]]⟩

def fundTx : Transaction := ⟨[], [Output.mk 1 [4]]⟩

def notaTx : Transaction := ⟨[], [Output.mk 0 notaScript]⟩

def plainTx (k : Nat) : Transaction := ⟨[], [Output.mk (Int.ofNat k) [k]]⟩

def testEnv : Env Unit where
  hashBlock := fun b => List.replicate 32 (b.transactions.length % 256)
  hashTx := fun t => List.replicate 32 ((t.inputs.length + t.outputs.length) % 256)
  merkleRoot := fun txs => [txs.length % 256]
  GENESIS_PREVIOUS_BLOCK_HASH := List.replicate 32 0
  GENESIS_COINBASE_DATA := [4, 255, 0, 29]
  block_cb := ⟨⟨[1], [2], 11⟩, [cbTx]⟩
  block_nota := ⟨⟨[1], [2], 11⟩, [cbTx, fundTx, notaTx]⟩

/-- C7: the coinbase fixup forces the protocol genesis coinbase payload at
height 0, at height > 0 appends the branch tag to the template payload and
rebuilds the input as a coinbase input with the current height and a u32::MAX
sequence, errors on any other input shape at index 0, and such an error halts
the whole batch. -/
theorem komodo_fix_coinbase_spec {σ : Type} (E : Env σ) (branch_id : Bytes) :
    (∀ tx : Transaction, tx.inputs ≠ [] →
      komodo_fix_coinbase E branch_id 0 tx =
        .ok { tx with inputs := [Input.coinbase 0 E.GENESIS_COINBASE_DATA u32MAX] }) ∧
    (∀ (tx : Transaction) (height h0 : Nat) (d : Bytes) (s : Nat), 0 < height →
      tx.inputs.head? = some (Input.coinbase h0 d s) →
      komodo_fix_coinbase E branch_id height tx =
        .ok { tx with inputs := [Input.coinbase height (d ++ branch_id) u32MAX] }) ∧
    (∀ (tx : Transaction) (height : Nat), 0 < height →
      (∀ (h0 : Nat) (d : Bytes) (s : Nat),
        tx.inputs.head? ≠ some (Input.coinbase h0 d s)) →
      tx.inputs ≠ [] →
      komodo_fix_coinbase E branch_id height tx = .error .coinbaseShape) ∧
    (∀ (fixup : FixupFn σ) (acc rest : List (Nat × Block)) (st : σ) (ht : Nat) (b : Block)
       (t0 : Transaction) (ts : List Transaction) (e : EngineError),
      b.transactions = t0 :: ts →
      komodo_fix_coinbase E branch_id ht t0 = .error e →
      komodo_chain_loop E fixup branch_id acc ((ht, b) :: rest) st = .error e) := by
  refine ⟨?_, ?_, ?_, ?_⟩
  · intro tx hne
    cases htx : tx.inputs with
    | nil => exact absurd htx hne
    | cons i0 r =>
      simp only [komodo_fix_coinbase, htx, List.head?_cons]
  · intro tx height h0 d s hpos hhead
    cases height with
    | zero => omega
    | succ n =>
      simp only [komodo_fix_coinbase, hhead]
  · intro tx height hpos hshape hne
    cases htx : tx.inputs with
    | nil => exact absurd htx hne
    | cons i0 r =>
      cases height with
      | zero => omega
      | succ n =>
        cases i0 with
        | coinbase ch cd cs =>
          exact absurd (by rw [htx]; rfl) (hshape ch cd cs)
        | prevOut op u s' =>
          simp only [komodo_fix_coinbase, htx, List.head?_cons]
  · intro fixup acc rest st ht b t0 ts e hbt hfix
    simp [komodo_chain_loop, komodo_process_block, komodo_process_txs, hbt, hfix]

theorem komodo_fix_coinbase_spec_witness :
    komodo_fix_coinbase testEnv [7] 3
      (Transaction.mk [Input.coinbase 9 [1, 2] 0] []) =
      .ok (Transaction.mk [Input.coinbase 3 [1, 2, 7] u32MAX] []) :=
  (komodo_fix_coinbase_spec testEnv [7]).2.1 (Transaction.mk [Input.coinbase 9 [1, 2] 0] [])
    3 9 [1, 2] 0 (by norm_num) rfl

/-- C6 (amended): when no block two positions back exists - in particular while
fewer than two entries precede the current one, i.e. at heights 0 and 1 of an
aligned chain - the notarization fixup returns the transaction unchanged with no
hints; the block itself is still rewritten by the coinbase/merkle/header fixups
(see the counterexample). -/
theorem komodo_fix_nota_skips_when_no_prev2 {σ : Type} (E : Env σ) :
    (∀ (height : Nat) (tx_1_fixed : Option Transaction) (tx : Transaction),
      komodo_fix_nota E height none tx_1_fixed tx = .ok (tx, none)) ∧
    (∀ acc : List (Nat × Block), acc.length ≤ 1 →
      ((acc.dropLast.getLast?).map (fun p => p.2) : Option Block) = none) := by
  constructor
  · intro height tx_1_fixed tx
    cases hl : tx.outputs.getLast? with
    | none => simp only [komodo_fix_nota, hl]
    | some last =>
      cases hd : BackNotarisationData.zcash_deserialize last.lock_script with
      | error e => simp only [komodo_fix_nota, hl, hd]
      | ok nota => simp only [komodo_fix_nota, hl, hd]
  · intro acc hlen
    match acc with
    | [] => rfl
    | [a] => rfl

theorem komodo_fix_nota_skips_witness :
    komodo_fix_nota testEnv 1 none none notaTx = .ok (notaTx, none) :=
  (komodo_fix_nota_skips_when_no_prev2 testEnv).1 1 none notaTx

/-- C6 counterexample: a height-0 template block whose last output is
notarization-shaped (its script decodes) is not returned byte-unchanged: the
builder rewrites its coinbase input and payload, merkle root and
previous-block hash. -/
theorem komodo_height0_block_rewritten :
    BackNotarisationData.zcash_deserialize notaScript =
      .ok ⟨0, List.replicate 32 1, []⟩ ∧
    komodo_create_partial_chain testEnv [] [] () 0 1 true acceptAllFixup =
      .ok [⟨⟨List.replicate 32 0, [3], 11⟩,
        [⟨[Input.coinbase 0 [4, 255, 0, 29] 4294967295], [Output.mk 5 [9]]⟩,
         fundTx, notaTx]⟩] ∧
    (⟨⟨List.replicate 32 0, [3], 11⟩,
        [⟨[Input.coinbase 0 [4, 255, 0, 29] 4294967295], [Output.mk 5 [9]]⟩,
         fundTx, notaTx]⟩ : Block) ≠ testEnv.block_nota := by
  refine ⟨by decide, by decide, by decide⟩

/-- C8 (amended): a successful block build always carries a merkle root computed
over exactly the kept transactions, and rejecting transaction index 3 of a
5-transaction block yields a built block with exactly the other 4 transactions
and a merkle root computed over those 4; a rejection is only fatal when it
removes the funding transaction needed by a later notarization patch (see the
counterexample). -/
theorem komodo_fixup_rejection_spec {σ : Type} (E : Env σ) (fixup : FixupFn σ)
    (branch_id : Bytes) :
    (∀ (height : Nat) (prev prev2 : Option Block) (b : Block) (st : σ) (pr : Block × σ),
      komodo_process_block E fixup branch_id height prev prev2 b st = .ok pr →
      pr.1.header.merkle_root = E.merkleRoot pr.1.transactions) ∧
    (komodo_process_block testEnv rejectIdx3Fixup [] 5 (some testEnv.block_cb)
        (some testEnv.block_cb)
        (⟨⟨[1], [2], 20⟩, [cbTx, plainTx 1, plainTx 2, plainTx 3, plainTx 4]⟩ : Block) () =
      .ok (⟨⟨List.replicate 32 1, [4], 71⟩,
        [⟨[Input.coinbase 5 [3] 4294967295], [Output.mk 5 [9]]⟩,
         plainTx 1, plainTx 2, plainTx 4]⟩, ()) ∧
      ([⟨[Input.coinbase 5 [3] 4294967295], [Output.mk 5 [9]]⟩,
        plainTx 1, plainTx 2, plainTx 4] : List Transaction).length = 4 ∧
      ([cbTx, plainTx 1, plainTx 2, plainTx 3, plainTx 4] : List Transaction).length = 5 ∧
      testEnv.merkleRoot [⟨[Input.coinbase 5 [3] 4294967295], [Output.mk 5 [9]]⟩,
        plainTx 1, plainTx 2, plainTx 4] = [4]) := by
  constructor
  · intro height prev prev2 b st pr h
    simp only [komodo_process_block] at h
    cases hr : komodo_process_txs E fixup branch_id height prev prev2
        b.transactions 0 none [] st with
    | error e =>
      simp only [hr] at h
      exact Except.noConfusion h
    | ok r =>
      simp only [hr] at h
      rcases Nat.eq_zero_or_pos height with hz | hpos
      · subst hz
        rw [if_neg (by omega : ¬ 0 < 0)] at h
        injection h with h1
        rw [← h1]
      · rw [if_pos hpos] at h
        cases hp : prev with
        | none =>
          simp only [hp] at h
          exact Except.noConfusion h
        | some p =>
          simp only [hp] at h
          injection h with h1
          rw [← h1]
  · refine ⟨by decide, by decide, by decide, by decide⟩

theorem komodo_fixup_rejection_spec_witness :
    (⟨⟨List.replicate 32 1, [4], 71⟩,
      [⟨[Input.coinbase 5 [3] 4294967295], [Output.mk 5 [9]]⟩,
       plainTx 1, plainTx 2, plainTx 4]⟩ : Block).header.merkle_root =
      testEnv.merkleRoot (⟨⟨List.replicate 32 1, [4], 71⟩,
      [⟨[Input.coinbase 5 [3] 4294967295], [Output.mk 5 [9]]⟩,
       plainTx 1, plainTx 2, plainTx 4]⟩ : Block).transactions :=
  (komodo_fixup_rejection_spec testEnv rejectIdx3Fixup []).1 5 (some testEnv.block_cb)
    (some testEnv.block_cb)
    (⟨⟨[1], [2], 20⟩, [cbTx, plainTx 1, plainTx 2, plainTx 3, plainTx 4]⟩ : Block) ()
    (⟨⟨List.replicate 32 1, [4], 71⟩,
      [⟨[Input.coinbase 5 [3] 4294967295], [Output.mk 5 [9]]⟩,
       plainTx 1, plainTx 2, plainTx 4]⟩, ()) (by decide)

/-- C8 counterexample: a fixup rejection can fail the batch - rejecting the
funding transaction at index 1 of a block whose index-2 transaction carries a
decodable notarization makes the build abort with missingFundingTx. -/
theorem komodo_fixup_rejection_counterexample :
    komodo_create_partial_chain testEnv [] [testEnv.block_cb, testEnv.block_cb] () 2 1 true
      rejectIdx1Fixup = .error .missingFundingTx := by decide

theorem komodo_chain_linkage_witness :
    ((0 : Nat) = 0 →
      (⟨⟨List.replicate 32 0, [0], 5⟩, []⟩ : Block).header.previous_block_hash =
        testEnv.GENESIS_PREVIOUS_BLOCK_HASH) ∧
    (0 < (0 : Nat) → ∃ pb, ([((0 : Nat), (⟨⟨List.replicate 32 0, [0], 5⟩, []⟩ : Block))] :
        List (Nat × Block))[0 - 1]? = some pb ∧
      (⟨⟨List.replicate 32 0, [0], 5⟩, []⟩ : Block).header.previous_block_hash =
        testEnv.hashBlock pb.2) :=
  (komodo_chain_linkage testEnv acceptAllFixup []).1 [(0, ⟨⟨[9], [8], 5⟩, []⟩)] [] ()
    ([(0, ⟨⟨List.replicate 32 0, [0], 5⟩, []⟩)], ()) (by decide) 0
    (0, ⟨⟨List.replicate 32 0, [0], 5⟩, []⟩) (by decide) (by decide)

theorem komodo_fix_nota_patches_target_witness :
    komodo_fix_nota testEnv 2 none (some fundTx) notaTx = .ok (notaTx, none) :=
  (komodo_fix_nota_patches_target testEnv 2 testEnv.block_cb (some fundTx) notaTx
    (Output.mk 0 notaScript) ⟨0, List.replicate 32 1, []⟩ (by decide) (by decide)
    (by norm_num) (by decide)).2

def notaTx10 : Transaction := ⟨[Input.prevOut ⟨[5], 0⟩ [] 0], [Output.mk 0 notaScript]⟩

theorem komodo_fix_nota_known_utxos_total_witness :
    ∃ tx' hints,
      komodo_fix_nota testEnv 2 (some testEnv.block_cb) (some fundTx) notaTx10 =
        .ok (tx', some hints) ∧
      tx'.inputs = notaTx10.inputs ∧
      hints.length = notaTx10.inputs.length ∧
      (∀ (k : Nat) (op : OutPoint) (u : Bytes) (s : Nat),
        notaTx10.inputs[k]? = some (Input.prevOut op u s) →
        ∃ o, fundTx.outputs[op.index]? = some o ∧
          hints[k]? = some ((⟨testEnv.hashTx fundTx, op.index⟩ : OutPoint),
            (⟨⟨⟨o.value, o.lock_script⟩, 2, false, LockTime.unlocked⟩, 1⟩ :
              OrderedUtxo))) :=
  (komodo_fix_nota_known_utxos_total testEnv 2 testEnv.block_cb (some fundTx) notaTx10
    (Output.mk 0 notaScript) ⟨0, List.replicate 32 1, []⟩ (by decide) (by decide)).1
    fundTx rfl (by
      intro inp hinp
      rw [show notaTx10.inputs = [Input.prevOut ⟨[5], 0⟩ [] 0] from rfl] at hinp
      rw [List.mem_singleton] at hinp
      subst hinp
      exact ⟨⟨[5], 0⟩, [], 0, rfl, by decide⟩)

theorem get_kmd_season_partition_witness : get_kmd_season 100 = .ok 0 :=
  (get_kmd_season_partition 100).1.mpr (by norm_num)

theorem komodo_get_notary_id_for_height_spec_witness :
    ∃ si, get_kmd_season 100 = .ok si ∧
      (kmd_season_pubkeys si).length = NUM_KMD_NOTARIES ∧
      (∀ i, komodo_get_notary_id_for_height true 100 2 = .ok (some i) ↔
        ∃ e, (kmd_season_pubkeys si)[i]? = some e ∧ e.2 = 2) ∧
      (komodo_get_notary_id_for_height true 100 2 = .ok none ↔
        ∀ e ∈ kmd_season_pubkeys si, e.2 ≠ 2) ∧
      (∀ pk' : Nat, 100 + 1 ≤ 7113400 → 100 ∉ KMD_SEASON_HEIGHTS →
        komodo_get_notary_id_for_height true 100 pk' =
          komodo_get_notary_id_for_height true (100 + 1) pk') :=
  komodo_get_notary_id_for_height_spec 100 2 (by norm_num)

/-- C9 (amended): on a poisoned season-registry lock the two notary-id getters
surface Err(NoNotaryPubkeysInitialised), while komodo_is_notary_node_output only
logs and returns false - the ordinary negative answer. -/
theorem komodo_poisoned_lock_spec :
    (∀ height pk : Nat, komodo_get_notary_id_for_height false height pk =
      .error .NoNotaryPubkeysInitialised) ∧
    (∀ ts pk : Nat, komodo_get_notary_id_for_timestamp false ts pk =
      .error .NoNotaryPubkeysInitialised) ∧
    (∀ (height : Nat) (out : Output),
      komodo_is_notary_node_output false height out = .ok false) :=
  ⟨fun _ _ => rfl, fun _ _ => rfl, fun _ _ => rfl⟩

theorem komodo_poisoned_lock_spec_witness :
    komodo_get_notary_id_for_height false 5 6 = .error .NoNotaryPubkeysInitialised :=
  komodo_poisoned_lock_spec.1 5 6

def p2pkScriptStub : Bytes := 0x21 :: (List.replicate 33 2 ++ [0xac])

/-- C9 counterexample: for a canonical P2PK output whose key is not in the
roster, komodo_is_notary_node_output answers ok false under a poisoned lock
exactly as it does under a healthy lock - the hard condition is not surfaced. -/
theorem komodo_is_notary_node_output_poisoned_counterexample :
    komodo_is_notary_node_output false 100 (Output.mk 0 p2pkScriptStub) = .ok false ∧
    komodo_is_notary_node_output true 100 (Output.mk 0 p2pkScriptStub) = .ok false := by
  exact ⟨rfl, by decide⟩
